import Mathlib

/-!
Shallow embedding of the FlexibleI2C library (FlexibleI2C.h / FlexibleI2C.cpp).

The engine (`Engine W`) carries the fields of the C++ class `FlexibleI2C`:
the bus registry (`std::map<uint8_t, I2CBusConfig> buses`), the device
directory (`std::vector<I2CDeviceInfo> known_devices`), the configurable
timeout and the instance-wide `last_error` field, plus the states of the two
physical wire primitives (`Wire` / `Wire1`), which the C++ code reaches
through pointers stored in each bus slot.

The physical bus driver (Arduino `TwoWire`) is an external collaborator; it
is modelled abstractly by `WireModel W`: a record of transition functions
over an opaque wire state `W`, matching the primitive contract
(begin / beginTransmission / write / endTransmission / requestFrom / read).
Concrete test doubles (an acknowledgment oracle, a register-storing double,
a short-read double) instantiate it further down.

Machine integers (`uint8_t`, `uint16_t`, `size_t`) are modelled as `Nat`;
explicit `% 256` appears exactly where the C++ code narrows a wider value to
`uint8_t` (casts / implicit conversions). The virtual hooks `onDeviceFound` /
`onDeviceLost` (no-ops in the base class) are modelled by an event list that
each operation returns, recording every hook invocation in order.
-/

namespace FlexI2C

/-- The `FlexibleI2C::I2CError` enum from FlexibleI2C.h. -/
inductive I2CError where
  | SUCCESS
  | TIMEOUT
  | NACK_ADDRESS
  | NACK_DATA
  | OTHER_ERROR
  | BUS_NOT_INITIALIZED
  | INVALID_PARAMETERS
deriving DecidableEq, Repr

/-- `static_cast<I2CError>(error)` applied to the numeric status returned by
`endTransmission`; the primitive contract only produces statuses 0..4. -/
def errorFromCode (n : Nat) : I2CError :=
  if n = 0 then .SUCCESS
  else if n = 1 then .TIMEOUT
  else if n = 2 then .NACK_ADDRESS
  else if n = 3 then .NACK_DATA
  else if n = 4 then .OTHER_ERROR
  else if n = 5 then .BUS_NOT_INITIALIZED
  else .INVALID_PARAMETERS

/-- `struct I2CBusConfig`. The `wire_instance` pointer is modelled as the
index of the wire it points at (`some 0` for `&Wire`, `some 1` for `&Wire1`,
`none` for `nullptr`). -/
structure I2CBusConfig where
  sda_pin : Nat
  scl_pin : Nat
  frequency : Nat
  wire_instance : Option Nat
  initialized : Bool
deriving DecidableEq, Repr

/-- `struct I2CDeviceInfo`. -/
structure I2CDeviceInfo where
  address : Nat
  bus_id : Nat
  device_name : String
  responsive : Bool
  last_seen : Nat
deriving DecidableEq, Repr

/-- Invocations of the virtual hooks `onDeviceFound` / `onDeviceLost`. -/
inductive Event where
  | deviceFound (bus_id address : Nat)
  | deviceLost (bus_id address : Nat)
deriving DecidableEq, Repr

def Event.isFound : Event → Bool
  | .deviceFound _ _ => true
  | .deviceLost _ _ => false

def Event.isLost : Event → Bool
  | .deviceFound _ _ => false
  | .deviceLost _ _ => true

/-- Abstract model of the physical bus driver (`TwoWire`), per the primitive
contract: `beginW` brings the bus online, `beginTransmission`/`write`/
`endTransmission` form a write transaction returning a numeric status
(0 = acknowledged), `requestFrom` returns the number of bytes received, and
`readW` pops the next received byte. -/
structure WireModel (W : Type) where
  beginW : W → Nat → Nat → Nat → Bool × W
  beginTransmission : W → Nat → W
  write : W → Nat → W
  endTransmission : W → Bool → Nat × W
  requestFrom : W → Nat → Nat → Bool → Nat × W
  readW : W → Nat × W

/-- The state of a `FlexibleI2C` instance together with the states of the
two wire primitives it may hold pointers to. `buses` models the partial map
`std::map<uint8_t, I2CBusConfig>` as a function into `Option`. -/
structure Engine (W : Type) where
  buses : Nat → Option I2CBusConfig
  known_devices : List I2CDeviceInfo
  i2c_timeout : Nat
  last_error : I2CError
  wire0 : W
  wire1 : W

/-- `buses.find(bus_id)` on the partial-map model. -/
def busesFind (m : Nat → Option I2CBusConfig) (b : Nat) : Option I2CBusConfig :=
  m b

/-- `buses[bus_id] = config` (insert-or-assign) on the partial-map model. -/
def busesAssign (m : Nat → Option I2CBusConfig) (b : Nat) (cfg : I2CBusConfig) :
    Nat → Option I2CBusConfig :=
  fun b' => if b' = b then some cfg else m b'

/-- `FlexibleI2C::setError`. -/
def setError {W : Type} (e : Engine W) (err : I2CError) : Engine W :=
  { e with last_error := err }

/-- The wire state the pointer with index `i` refers to (`&Wire` for 0,
`&Wire1` otherwise). -/
def getWireState {W : Type} (e : Engine W) (i : Nat) : W :=
  if i = 0 then e.wire0 else e.wire1

/-- Store back the state of the wire with index `i`. -/
def setWireState {W : Type} (e : Engine W) (i : Nat) (w : W) : Engine W :=
  if i = 0 then { e with wire0 := w } else { e with wire1 := w }

/-- `FlexibleI2C::isBusInitialized`. -/
def isBusInitialized {W : Type} (e : Engine W) (bus_id : Nat) : Bool :=
  match busesFind e.buses bus_id with
  | some cfg => cfg.initialized
  | none => false

/-- `FlexibleI2C::getBus`: returns the stored `wire_instance` pointer only
when the slot exists and is initialized, else `nullptr` (`none`). -/
def getBus {W : Type} (e : Engine W) (bus_id : Nat) : Option Nat :=
  match busesFind e.buses bus_id with
  | some cfg => if cfg.initialized then cfg.wire_instance else none
  | none => none

/-- `FlexibleI2C::validateBusAndAddress`: bus must be initialized (else
`BUS_NOT_INITIALIZED`), address must not be 0 nor exceed 127 (else
`INVALID_PARAMETERS`). Returns the C++ bool together with the mutated
engine state. -/
def validateBusAndAddress {W : Type} (e : Engine W) (bus_id address : Nat) :
    Bool × Engine W :=
  if !(isBusInitialized e bus_id) then
    (false, setError e .BUS_NOT_INITIALIZED)
  else if address = 0 || address > 127 then
    (false, setError e .INVALID_PARAMETERS)
  else
    (true, e)

/-- `FlexibleI2C::initBus`. On a fresh id it selects `&Wire` or `&Wire1`,
calls the primitive's `begin`, and stores the slot only on success; an
already-initialized id returns `true` immediately with no state change. -/
def initBus {W : Type} (M : WireModel W) (e : Engine W)
    (bus_id sda_pin scl_pin frequency : Nat) : Bool × Engine W :=
  if bus_id > 1 then
    (false, setError e .INVALID_PARAMETERS)
  else if isBusInitialized e bus_id then
    (true, e)
  else
    let widx := if bus_id = 0 then 0 else 1
    let r := M.beginW (getWireState e widx) sda_pin scl_pin frequency
    let e1 := setWireState e widx r.2
    if r.1 then
      let cfg : I2CBusConfig :=
        { sda_pin := sda_pin, scl_pin := scl_pin, frequency := frequency,
          wire_instance := some widx, initialized := true }
      (true, setError { e1 with buses := busesAssign e1.buses bus_id cfg } .SUCCESS)
    else
      (false, setError e1 .OTHER_ERROR)

/-- Inner update of `scanBus`'s first loop over `known_devices`: sets
`responsive = true` and refreshes `last_seen` on the first record matching
(address, bus_id), then breaks. -/
def updateFirstDevice (bus_id address now : Nat) :
    List I2CDeviceInfo → List I2CDeviceInfo
  | [] => []
  | d :: rest =>
    if d.address == address && d.bus_id == bus_id then
      { d with responsive := true, last_seen := now } :: rest
    else
      d :: updateFirstDevice bus_id address now rest

/-- The `device_exists` upsert inside `scanBus`: refresh the first matching
record, or push a new `"Unknown Device"` record. `now` models the `millis()`
reading taken during this scan sweep. -/
def recordDevice {W : Type} (e : Engine W) (bus_id address now : Nat) : Engine W :=
  if e.known_devices.any (fun d => d.address == address && d.bus_id == bus_id) then
    { e with known_devices := updateFirstDevice bus_id address now e.known_devices }
  else
    { e with known_devices := e.known_devices ++
        [{ address := address, bus_id := bus_id, device_name := "Unknown Device",
           responsive := true, last_seen := now }] }

/-- The probe loop of `scanBus` over the remaining candidate addresses:
address-only transaction, and on status 0 collect the address, invoke the
device-found hook, and upsert the device record. Returns the collected
addresses, the updated engine, and the hook invocations in order. -/
def scanProbe {W : Type} (M : WireModel W) (widx bus_id now : Nat) :
    Engine W → List Nat → List Nat × Engine W × List Event
  | e, [] => ([], e, [])
  | e, address :: rest =>
    let w := M.beginTransmission (getWireState e widx) address
    let r := M.endTransmission w true
    let e1 := setWireState e widx r.2
    if r.1 = 0 then
      let e2 := recordDevice e1 bus_id address now
      let rec' := scanProbe M widx bus_id now e2 rest
      (address :: rec'.1, rec'.2.1, Event.deviceFound bus_id address :: rec'.2.2)
    else
      scanProbe M widx bus_id now e1 rest

/-- The reconciliation loop at the end of `scanBus`: every record on this
bus whose address was not observed and that was responsive is flipped to
non-responsive, invoking the device-lost hook. -/
def reconcileLost (found : List Nat) (bus_id : Nat) :
    List I2CDeviceInfo → List I2CDeviceInfo × List Event
  | [] => ([], [])
  | d :: rest =>
    let r := reconcileLost found bus_id rest
    if d.bus_id == bus_id && !(found.contains d.address) && d.responsive then
      ({ d with responsive := false } :: r.1, Event.deviceLost bus_id d.address :: r.2)
    else
      (d :: r.1, r.2)

/-- The candidate addresses of the scan sweep:
`for (uint8_t address = 1; address < 127; address++)`. -/
def scanAddresses : List Nat := List.range' 1 126

/-- `FlexibleI2C::scanBus`. -/
def scanBus {W : Type} (M : WireModel W) (e : Engine W) (bus_id now : Nat) :
    List Nat × Engine W × List Event :=
  if !(isBusInitialized e bus_id) then
    ([], setError e .BUS_NOT_INITIALIZED, [])
  else
    match getBus e bus_id with
    | none => ([], setError e .BUS_NOT_INITIALIZED, [])
    | some widx =>
      let r := scanProbe M widx bus_id now e scanAddresses
      let rc := reconcileLost r.1 bus_id r.2.1.known_devices
      (r.1, setError { r.2.1 with known_devices := rc.1 } .SUCCESS, r.2.2 ++ rc.2)

/-- `FlexibleI2C::getAllDevices`. -/
def getAllDevices {W : Type} (e : Engine W) : List I2CDeviceInfo :=
  e.known_devices

/-- `FlexibleI2C::isDevicePresent`: validated address-only probe; presence
is status 0. Note: no `setError` on the post-validation path. (The `none`
branch of `getBus` mirrors a null-pointer dereference that cannot occur
after validation succeeds.) -/
def isDevicePresent {W : Type} (M : WireModel W) (e : Engine W)
    (bus_id address : Nat) : Bool × Engine W :=
  let v := validateBusAndAddress e bus_id address
  if v.1 = false then (false, v.2)
  else
    match getBus v.2 bus_id with
    | none => (false, v.2)
    | some widx =>
      let w := M.beginTransmission (getWireState v.2 widx) address
      let r := M.endTransmission w true
      (r.1 = 0, setWireState v.2 widx r.2)

/-- `FlexibleI2C::writeRegister`: one transaction writing the register
address then the data byte. -/
def writeRegister {W : Type} (M : WireModel W) (e : Engine W)
    (bus_id device_address reg_address data : Nat) : Bool × Engine W :=
  let v := validateBusAndAddress e bus_id device_address
  if v.1 = false then (false, v.2)
  else
    match getBus v.2 bus_id with
    | none => (false, v.2)
    | some widx =>
      let w := M.beginTransmission (getWireState v.2 widx) device_address
      let w := M.write w reg_address
      let w := M.write w data
      let r := M.endTransmission w true
      let e1 := setWireState v.2 widx r.2
      if r.1 = 0 then (true, setError e1 .SUCCESS)
      else (false, setError e1 (errorFromCode r.1))

/-- `FlexibleI2C::writeRegister16`: writes the register address, then
`data >> 8` (high byte) and `data & 0xFF` (low byte); `data` models a
`uint16_t`, so `data >> 8` is `data / 256` and `data & 0xFF` is `data % 256`. -/
def writeRegister16 {W : Type} (M : WireModel W) (e : Engine W)
    (bus_id device_address reg_address data : Nat) : Bool × Engine W :=
  let v := validateBusAndAddress e bus_id device_address
  if v.1 = false then (false, v.2)
  else
    match getBus v.2 bus_id with
    | none => (false, v.2)
    | some widx =>
      let w := M.beginTransmission (getWireState v.2 widx) device_address
      let w := M.write w reg_address
      let w := M.write w (data / 256)
      let w := M.write w (data % 256)
      let r := M.endTransmission w true
      let e1 := setWireState v.2 widx r.2
      if r.1 = 0 then (true, setError e1 .SUCCESS)
      else (false, setError e1 (errorFromCode r.1))

/-- `FlexibleI2C::writeBytes`. The `(data, length)` pointer/length pair is
modelled as `Option (List Nat)`: `none` is a null pointer, and the list is
exactly the `length` bytes read through the pointer. Note that
`validateBusAndAddress` runs first (its `setError` included) and the
combined guard then overwrites the error with `INVALID_PARAMETERS`. -/
def writeBytes {W : Type} (M : WireModel W) (e : Engine W)
    (bus_id device_address reg_address : Nat) (data : Option (List Nat)) :
    Bool × Engine W :=
  let v := validateBusAndAddress e bus_id device_address
  if v.1 = false || data = none || data.getD [] = [] then
    (false, setError v.2 .INVALID_PARAMETERS)
  else
    match getBus v.2 bus_id with
    | none => (false, v.2)
    | some widx =>
      let w := M.beginTransmission (getWireState v.2 widx) device_address
      let w := M.write w reg_address
      let w := (data.getD []).foldl M.write w
      let r := M.endTransmission w true
      let e1 := setWireState v.2 widx r.2
      if r.1 = 0 then (true, setError e1 .SUCCESS)
      else (false, setError e1 (errorFromCode r.1))

/-- Pop `n` bytes from the wire by sequential `read()` calls. -/
def readN {W : Type} (M : WireModel W) : W → Nat → List Nat × W
  | w, 0 => ([], w)
  | w, n + 1 =>
    let r := M.readW w
    let rest := readN M r.2 n
    (r.1 :: rest.1, rest.2)

/-- `FlexibleI2C::readRegister`: write the register address, close without
stop (repeated start), request one byte; a short read is `TIMEOUT`. -/
def readRegister {W : Type} (M : WireModel W) (e : Engine W)
    (bus_id device_address reg_address : Nat) : Nat × Engine W :=
  let v := validateBusAndAddress e bus_id device_address
  if v.1 = false then (0, v.2)
  else
    match getBus v.2 bus_id with
    | none => (0, v.2)
    | some widx =>
      let w := M.beginTransmission (getWireState v.2 widx) device_address
      let w := M.write w reg_address
      let r := M.endTransmission w false
      let e1 := setWireState v.2 widx r.2
      if r.1 ≠ 0 then (0, setError e1 (errorFromCode r.1))
      else
        let q := M.requestFrom (getWireState e1 widx) device_address 1 true
        let e2 := setWireState e1 widx q.2
        if q.1 = 1 then
          let b := M.readW (getWireState e2 widx)
          (b.1, setError (setWireState e2 widx b.2) .SUCCESS)
        else
          (0, setError e2 .TIMEOUT)

/-- `FlexibleI2C::readRegister16`: requests two bytes; the first received
byte is the high byte (`result = read() << 8; result |= read()`). -/
def readRegister16 {W : Type} (M : WireModel W) (e : Engine W)
    (bus_id device_address reg_address : Nat) : Nat × Engine W :=
  let v := validateBusAndAddress e bus_id device_address
  if v.1 = false then (0, v.2)
  else
    match getBus v.2 bus_id with
    | none => (0, v.2)
    | some widx =>
      let w := M.beginTransmission (getWireState v.2 widx) device_address
      let w := M.write w reg_address
      let r := M.endTransmission w false
      let e1 := setWireState v.2 widx r.2
      if r.1 ≠ 0 then (0, setError e1 (errorFromCode r.1))
      else
        let q := M.requestFrom (getWireState e1 widx) device_address 2 true
        let e2 := setWireState e1 widx q.2
        if q.1 = 2 then
          let b1 := M.readW (getWireState e2 widx)
          let b2 := M.readW b1.2
          ((b1.1 <<< 8) ||| b2.1, setError (setWireState e2 widx b2.2) .SUCCESS)
        else
          (0, setError e2 .TIMEOUT)

/-- `FlexibleI2C::readBytes`. The caller's buffer is modelled as the list
`buf` (its current contents); on success its first `length` cells are
overwritten with the received bytes, otherwise it is returned untouched.
`none` models a null `data` pointer. The request count narrows `length`
(`size_t`) to `uint8_t`. As in `writeBytes`, a failed validation's error is
overwritten with `INVALID_PARAMETERS` by the combined guard. -/
def readBytes {W : Type} (M : WireModel W) (e : Engine W)
    (bus_id device_address reg_address : Nat) (data : Option (List Nat))
    (length : Nat) : Bool × Option (List Nat) × Engine W :=
  let v := validateBusAndAddress e bus_id device_address
  if v.1 = false || data = none || length = 0 then
    (false, data, setError v.2 .INVALID_PARAMETERS)
  else
    match getBus v.2 bus_id with
    | none => (false, data, v.2)
    | some widx =>
      let w := M.beginTransmission (getWireState v.2 widx) device_address
      let w := M.write w reg_address
      let r := M.endTransmission w false
      let e1 := setWireState v.2 widx r.2
      if r.1 ≠ 0 then (false, data, setError e1 (errorFromCode r.1))
      else
        let q := M.requestFrom (getWireState e1 widx) device_address (length % 256) true
        let e2 := setWireState e1 widx q.2
        if q.1 = length then
          let rd := readN M (getWireState e2 widx) length
          (true, some (rd.1 ++ (data.getD []).drop length),
           setError (setWireState e2 widx rd.2) .SUCCESS)
        else
          (false, data, setError e2 .TIMEOUT)

/-- `FlexibleI2C::beginTransmission` (raw passthrough): no `setError` on
the post-validation path. -/
def beginTransmission {W : Type} (M : WireModel W) (e : Engine W)
    (bus_id address : Nat) : Bool × Engine W :=
  let v := validateBusAndAddress e bus_id address
  if v.1 = false then (false, v.2)
  else
    match getBus v.2 bus_id with
    | none => (false, v.2)
    | some widx =>
      (true, setWireState v.2 widx (M.beginTransmission (getWireState v.2 widx) address))

/-- `FlexibleI2C::endTransmission` (raw passthrough): gated only by
`isBusInitialized`, sets the error on both outcomes. -/
def endTransmission {W : Type} (M : WireModel W) (e : Engine W)
    (bus_id : Nat) (stop : Bool) : Bool × Engine W :=
  if !(isBusInitialized e bus_id) then
    (false, setError e .BUS_NOT_INITIALIZED)
  else
    match getBus e bus_id with
    | none => (false, e)
    | some widx =>
      let r := M.endTransmission (getWireState e widx) stop
      let e1 := setWireState e widx r.2
      if r.1 = 0 then (true, setError e1 .SUCCESS)
      else (false, setError e1 (errorFromCode r.1))

/-- `FlexibleI2C::requestFrom` (raw passthrough): returns whether exactly
`quantity` bytes were received; no `setError` on the post-validation path. -/
def requestFrom {W : Type} (M : WireModel W) (e : Engine W)
    (bus_id address quantity : Nat) (stop : Bool) : Bool × Engine W :=
  let v := validateBusAndAddress e bus_id address
  if v.1 = false then (false, v.2)
  else
    match getBus v.2 bus_id with
    | none => (false, v.2)
    | some widx =>
      let r := M.requestFrom (getWireState v.2 widx) address quantity stop
      (r.1 = quantity, setWireState v.2 widx r.2)

/-! ### Test doubles for the wire primitive -/

/-- `FlexibleI2C()` constructor: empty registry and directory, timeout 1000,
`last_error = SUCCESS`, given initial wire states. -/
def mkEngine {W : Type} (w0 w1 : W) : Engine W :=
  { buses := fun _ => none, known_devices := [], i2c_timeout := 1000,
    last_error := .SUCCESS, wire0 := w0, wire1 := w1 }

/-- Acknowledgment-oracle double: an address acknowledges (status 0) iff it
is in `acks`; `probes` records every `beginTransmission` target. -/
structure AckWire where
  acks : List Nat
  cur : Option Nat
  probes : List Nat
deriving DecidableEq, Repr

def ackM : WireModel AckWire where
  beginW := fun w _ _ _ => (true, w)
  beginTransmission := fun w a => { w with cur := some a, probes := w.probes ++ [a] }
  write := fun w _ => w
  endTransmission := fun w _ =>
    ((match w.cur with
      | some a => if w.acks.contains a then 0 else 2
      | none => 4), { w with cur := none })
  requestFrom := fun w _ _ _ => (0, w)
  readW := fun w => (0, w)

/-- Pointwise update of a simulated device register file. -/
def updateRegs (f : Nat → Nat → List Nat) (a reg : Nat) (bs : List Nat) :
    Nat → Nat → List Nat :=
  fun x y => if x = a && y = reg then bs else f x y

/-- Register-storing double (a simulated device per address): a write
transaction `[reg]` sets the register pointer; `[reg, d...]` additionally
stores `d...` at that register; `requestFrom` serves the stored bytes of
the pointed-to register. Every transaction is acknowledged. -/
structure RegWire where
  regs : Nat → Nat → List Nat
  txTarget : Option Nat
  txQueue : List Nat
  ptrReg : Nat
  rxQueue : List Nat

def regM : WireModel RegWire where
  beginW := fun w _ _ _ => (true, w)
  beginTransmission := fun w a => { w with txTarget := some a, txQueue := [] }
  write := fun w b => { w with txQueue := w.txQueue ++ [b % 256] }
  endTransmission := fun w _ =>
    match w.txTarget, w.txQueue with
    | some a, reg :: rest =>
      let newRegs := if rest = [] then w.regs else updateRegs w.regs a reg rest
      (0, { w with txTarget := none, txQueue := [], ptrReg := reg, regs := newRegs })
    | some _, [] => (0, { w with txTarget := none })
    | none, _ => (4, w)
  requestFrom := fun w a n _ =>
    let bs := w.regs a w.ptrReg
    let got := min n bs.length
    (got, { w with rxQueue := bs.take got })
  readW := fun w =>
    match w.rxQueue with
    | [] => (0, w)
    | b :: rest => (b, { w with rxQueue := rest })

/-- Short-read double: acknowledges everything, and `requestFrom` reports
`ret` bytes received regardless of the count requested; `read()` serves
`rx`. -/
structure ShortWire where
  ret : Nat
  rx : List Nat
deriving DecidableEq, Repr

def shortM : WireModel ShortWire where
  beginW := fun w _ _ _ => (true, w)
  beginTransmission := fun w _ => w
  write := fun w _ => w
  endTransmission := fun w _ => (0, w)
  requestFrom := fun w _ _ _ => (w.ret, w)
  readW := fun w =>
    match w.rx with
    | [] => (0, w)
    | b :: rest => (b, { w with rx := rest })

/-! ### The request-adapter layer (string parameter parsing and handlers)

Arduino `String` values are modelled as Lean `String` / `List Char`.
`strtol(str, NULL, 16)` and `String::toInt()` are libc/Arduino externals;
they are modelled for the forms the endpoints document (unsigned hex and
decimal literals): skip leading whitespace, an optional `0x`/`0X` prefix
for hex, then the longest digit run, yielding 0 when no digits are found. -/

/-- `isspace` on the characters relevant here (also what `String::trim`
strips). -/
def isSpaceChar (c : Char) : Bool :=
  c = ' ' || c = '\t' || c = '\n' || c = Char.ofNat 11 || c = Char.ofNat 12 || c = '\r'

/-- Arduino `String::trim()`: strip leading and trailing whitespace. -/
def trimChars (l : List Char) : List Char :=
  ((l.dropWhile isSpaceChar).reverse.dropWhile isSpaceChar).reverse

/-- Value of one hex digit, by character code (48-57 are the decimal
digits, 97-102 and 65-70 the lower/upper hex letters). -/
def hexVal (c : Char) : Option Nat :=
  let n := c.toNat
  if 48 ≤ n ∧ n ≤ 57 then some (n - 48)
  else if 97 ≤ n ∧ n ≤ 102 then some (n - 87)
  else if 65 ≤ n ∧ n ≤ 70 then some (n - 55)
  else none

/-- Longest run of hex digits, most significant first. -/
def hexLoop : List Char → Nat → Nat
  | [], acc => acc
  | c :: rest, acc =>
    match hexVal c with
    | some d => hexLoop rest (acc * 16 + d)
    | none => acc

/-- `strtol(str, NULL, 16)` on the unsigned hex literals the endpoints
document ("0x48", "48", ...). -/
def strtolHex (l : List Char) : Nat :=
  let l := l.dropWhile isSpaceChar
  match l with
  | '0' :: 'x' :: rest => hexLoop rest 0
  | '0' :: 'X' :: rest => hexLoop rest 0
  | _ => hexLoop l 0

/-- Value of one decimal digit, by character code. -/
def decVal (c : Char) : Option Nat :=
  let n := c.toNat
  if 48 ≤ n ∧ n ≤ 57 then some (n - 48) else none

def decLoop : List Char → Nat → Nat
  | [], acc => acc
  | c :: rest, acc =>
    match decVal c with
    | some d => decLoop rest (acc * 10 + d)
    | none => acc

/-- Arduino `String::toInt()` on the unsigned decimal parameters the
endpoints document. -/
def toIntNat (s : String) : Nat :=
  decLoop (s.data.dropWhile isSpaceChar) 0

/-- The comma-splitting loop of `handleWriteBytes`, on fuel (each loop
iteration consumes at least one character past a comma, so any fuel above
the string length runs the loop to completion): take the substring up to
the next comma (or the rest of the string), `trim()` it, skip it when
empty, else push `(uint8_t) strtol(token, NULL, 16)`; stop when no comma
remains. -/
def parseHexAux : Nat → List Char → List Nat
  | 0, _ => []
  | fuel + 1, s =>
    let tok := s.takeWhile (fun c => c ≠ ',')
    let t := trimChars tok
    let here : List Nat := if t = [] then [] else [strtolHex t % 256]
    match s.dropWhile (fun c => c ≠ ',') with
    | [] => here
    | _ :: rest => here ++ parseHexAux fuel rest

/-- The comma-splitting loop of `handleWriteBytes` over the whole data
string. -/
def parseHexBytes (s : List Char) : List Nat :=
  parseHexAux (s.length + 1) s

/-- `params.find(key)` on the flat parameter map. -/
def getParam (ps : List (String × String)) (k : String) : Option String :=
  (ps.find? (fun p => p.1 == k)).map (fun p => p.2)

/-- `FlexibleI2C::handleWriteBytes`, as (status code, resulting engine):
missing parameters are 400 before any hardware access; the data string is
split on commas with empty tokens skipped; an empty parsed list is 400 with
no transaction; otherwise `writeBytes` decides between 200 and 500. -/
def handleWriteBytes {W : Type} (M : WireModel W) (e : Engine W)
    (params : List (String × String)) : Nat × Engine W :=
  match getParam params "bus_id", getParam params "device_addr",
        getParam params "reg_addr", getParam params "data" with
  | some bs, some das, some ras, some ds =>
    let bus_id := toIntNat bs % 256
    let device_addr := strtolHex das.data % 256
    let reg_addr := strtolHex ras.data % 256
    let data_bytes := parseHexBytes ds.data
    if data_bytes = [] then (400, e)
    else
      let r := writeBytes M e bus_id device_addr reg_addr (some data_bytes)
      (if r.1 then 200 else 500, r.2)
  | _, _, _, _ => (400, e)

/-- The observable parts of `handlePingDevice`'s JSON response: the HTTP
status, the `success` field, and the `present` field (absent on the
missing-parameter branch). -/
structure PingResponse where
  status : Nat
  success : Bool
  present : Option Bool
deriving DecidableEq, Repr

/-- `FlexibleI2C::handlePingDevice`: with both parameters present it always
replies 200 / `success:true`, reporting `isDevicePresent`'s boolean as
`present`. -/
def handlePingDevice {W : Type} (M : WireModel W) (e : Engine W)
    (params : List (String × String)) : PingResponse × Engine W :=
  match getParam params "bus_id", getParam params "device_addr" with
  | some bs, some das =>
    let bus_id := toIntNat bs % 256
    let device_addr := strtolHex das.data % 256
    let r := isDevicePresent M e bus_id device_addr
    ({ status := 200, success := true, present := some r.1 }, r.2)
  | _, _ => ({ status := 400, success := false, present := none }, e)

/-! ### Basic lemmas about the engine-state combinators -/

@[simp] lemma setError_setError {W : Type} (e : Engine W) (x y : I2CError) :
    setError (setError e x) y = setError e y := rfl

@[simp] lemma last_error_setError {W : Type} (e : Engine W) (x : I2CError) :
    (setError e x).last_error = x := rfl

@[simp] lemma buses_setError {W : Type} (e : Engine W) (x : I2CError) :
    (setError e x).buses = e.buses := rfl

@[simp] lemma isBusInit_setError {W : Type} (e : Engine W) (x : I2CError) (b : Nat) :
    isBusInitialized (setError e x) b = isBusInitialized e b := rfl

@[simp] lemma getBus_setError {W : Type} (e : Engine W) (x : I2CError) (b : Nat) :
    getBus (setError e x) b = getBus e b := rfl

@[simp] lemma getWireState_setError {W : Type} (e : Engine W) (x : I2CError) (i : Nat) :
    getWireState (setError e x) i = getWireState e i := by
  by_cases h : i = 0 <;> simp [getWireState, setError, h]

@[simp] lemma getWireState_setWireState {W : Type} (e : Engine W) (i : Nat) (w : W) :
    getWireState (setWireState e i w) i = w := by
  by_cases h : i = 0 <;> simp [getWireState, setWireState, h]

@[simp] lemma setWireState_setWireState {W : Type} (e : Engine W) (i : Nat) (w w' : W) :
    setWireState (setWireState e i w) i w' = setWireState e i w' := by
  by_cases h : i = 0 <;> simp [setWireState, h]

@[simp] lemma buses_setWireState {W : Type} (e : Engine W) (i : Nat) (w : W) :
    (setWireState e i w).buses = e.buses := by
  by_cases h : i = 0 <;> simp [setWireState, h]

@[simp] lemma last_error_setWireState {W : Type} (e : Engine W) (i : Nat) (w : W) :
    (setWireState e i w).last_error = e.last_error := by
  by_cases h : i = 0 <;> simp [setWireState, h]

@[simp] lemma isBusInit_setWireState {W : Type} (e : Engine W) (i : Nat) (w : W) (b : Nat) :
    isBusInitialized (setWireState e i w) b = isBusInitialized e b := by
  simp [isBusInitialized]

@[simp] lemma getBus_setWireState {W : Type} (e : Engine W) (i : Nat) (w : W) (b : Nat) :
    getBus (setWireState e i w) b = getBus e b := by
  simp [getBus]

lemma setError_setWireState {W : Type} (e : Engine W) (i : Nat) (w : W) (x : I2CError) :
    setError (setWireState e i w) x = setWireState (setError e x) i w := by
  by_cases h : i = 0 <;> simp [setWireState, setError, h]

/-- A passing validation leaves the engine untouched. -/
lemma validate_pass {W : Type} {e : Engine W} {b a : Nat}
    (h : (validateBusAndAddress e b a).1 = true) :
    validateBusAndAddress e b a = (true, e) := by
  unfold validateBusAndAddress at h ⊢
  split at h
  · exact absurd h (by simp)
  · split at h
    · exact absurd h (by simp)
    · simp_all

/-- `getBus` returns a non-null handle only for initialized slots. -/
lemma getBus_some_init {W : Type} {e : Engine W} {b widx : Nat}
    (h : getBus e b = some widx) : isBusInitialized e b = true := by
  unfold getBus at h
  unfold isBusInitialized
  revert h
  cases hf : busesFind e.buses b with
  | none => intro h; cases h
  | some cfg =>
    intro h
    by_cases hi : cfg.initialized
    · exact hi
    · simp [hi] at h

/-! ### Concrete scenario states -/

/-- A fresh acknowledgment-oracle wire. -/
def ackWire (acks : List Nat) : AckWire :=
  { acks := acks, cur := none, probes := [] }

/-- A fresh engine over acknowledgment-oracle wires, no bus initialized. -/
def emptyAckEngine : Engine AckWire :=
  mkEngine (ackWire []) (ackWire [])

/-- Engine with bus 0 initialized over an oracle wire acknowledging `acks`. -/
def ackEngineWith (acks : List Nat) : Engine AckWire :=
  (initBus ackM (mkEngine (ackWire acks) (ackWire [])) 0 21 22 100000).2

/-- Engine with bus 0 initialized, no device acknowledging. -/
def busyAckEngine : Engine AckWire := ackEngineWith []

/-- C3 scenario: first scan on bus 0 with devices 0x48 (= 72) and
0x50 (= 80) on the wire, at time 1000. -/
def scanS1 : List Nat × Engine AckWire × List Event :=
  scanBus ackM (ackEngineWith [72, 80]) 0 1000

/-- C3 scenario: the environment changes — only 0x48 still acknowledges —
and a second scan runs at time 2000. -/
def scanS2 : List Nat × Engine AckWire × List Event :=
  scanBus ackM (setWireState scanS1.2.1 0 (ackWire [72])) 0 2000

/-- C3 scenario: a third scan at time 3000, 0x50 still absent. -/
def scanS3 : List Nat × Engine AckWire × List Event :=
  scanBus ackM scanS2.2.1 0 3000

/-- C3: after a first scan of bus 0 observing exactly {0x48, 0x50} (both
recorded responsive), a second scan in which only 0x48 acknowledges leaves
0x48 responsive with `last_seen` refreshed to the new time, flips 0x50 to
non-responsive (keeping its old `last_seen`), fires exactly one device-lost
hook invocation — for (0, 0x50) — and deletes no record; a third scan with
0x50 still absent fires no further device-lost invocation. -/
theorem claim_C3 :
    scanS1.1 = [72, 80]
    ∧ scanS1.2.1.known_devices =
        [{ address := 72, bus_id := 0, device_name := "Unknown Device",
           responsive := true, last_seen := 1000 },
         { address := 80, bus_id := 0, device_name := "Unknown Device",
           responsive := true, last_seen := 1000 }]
    ∧ scanS2.1 = [72]
    ∧ scanS2.2.1.known_devices =
        [{ address := 72, bus_id := 0, device_name := "Unknown Device",
           responsive := true, last_seen := 2000 },
         { address := 80, bus_id := 0, device_name := "Unknown Device",
           responsive := false, last_seen := 1000 }]
    ∧ scanS2.2.2.filter Event.isLost = [Event.deviceLost 0 80]
    ∧ scanS2.2.1.known_devices.length = scanS1.2.1.known_devices.length
    ∧ scanS3.2.2.filter Event.isLost = [] := by
  decide

/-- C1 (amended): on an uninitialized bus id every register-level operation
fails — returning false / zero and leaving the buffer untouched — and the
last error is `BUS_NOT_INITIALIZED` for writeRegister, writeRegister16,
readRegister, readRegister16, isDevicePresent, beginTransmission and
requestFrom; but for `writeBytes` and `readBytes` the combined parameter
guard immediately overwrites it, so the observed last error there is
`INVALID_PARAMETERS`. -/
theorem claim_C1 {W : Type} (M : WireModel W) (e : Engine W)
    (b a reg v d16 : Nat) (buf : Option (List Nat)) (len q : Nat) (stop : Bool)
    (h : isBusInitialized e b = false) :
    writeRegister M e b a reg v = (false, setError e .BUS_NOT_INITIALIZED)
    ∧ writeRegister16 M e b a reg d16 = (false, setError e .BUS_NOT_INITIALIZED)
    ∧ writeBytes M e b a reg buf = (false, setError e .INVALID_PARAMETERS)
    ∧ readRegister M e b a reg = (0, setError e .BUS_NOT_INITIALIZED)
    ∧ readRegister16 M e b a reg = (0, setError e .BUS_NOT_INITIALIZED)
    ∧ readBytes M e b a reg buf len = (false, buf, setError e .INVALID_PARAMETERS)
    ∧ isDevicePresent M e b a = (false, setError e .BUS_NOT_INITIALIZED)
    ∧ beginTransmission M e b a = (false, setError e .BUS_NOT_INITIALIZED)
    ∧ requestFrom M e b a q stop = (false, setError e .BUS_NOT_INITIALIZED) := by
  have hv : validateBusAndAddress e b a = (false, setError e .BUS_NOT_INITIALIZED) := by
    simp [validateBusAndAddress, h]
  refine ⟨?_, ?_, ?_, ?_, ?_, ?_, ?_, ?_, ?_⟩ <;>
    simp [writeRegister, writeRegister16, writeBytes, readRegister, readRegister16,
          readBytes, isDevicePresent, beginTransmission, requestFrom, hv]

/-- Witness for C1 at a concrete uninitialized engine. -/
theorem claim_C1_witness :
    isBusInitialized emptyAckEngine 0 = false
    ∧ (writeRegister ackM emptyAckEngine 0 72 0 5 =
        (false, setError emptyAckEngine .BUS_NOT_INITIALIZED)
      ∧ writeRegister16 ackM emptyAckEngine 0 72 0 300 =
        (false, setError emptyAckEngine .BUS_NOT_INITIALIZED)
      ∧ writeBytes ackM emptyAckEngine 0 72 0 (some [9, 9]) =
        (false, setError emptyAckEngine .INVALID_PARAMETERS)
      ∧ readRegister ackM emptyAckEngine 0 72 0 =
        (0, setError emptyAckEngine .BUS_NOT_INITIALIZED)
      ∧ readRegister16 ackM emptyAckEngine 0 72 0 =
        (0, setError emptyAckEngine .BUS_NOT_INITIALIZED)
      ∧ readBytes ackM emptyAckEngine 0 72 0 (some [9, 9]) 2 =
        (false, some [9, 9], setError emptyAckEngine .INVALID_PARAMETERS)
      ∧ isDevicePresent ackM emptyAckEngine 0 72 =
        (false, setError emptyAckEngine .BUS_NOT_INITIALIZED)
      ∧ beginTransmission ackM emptyAckEngine 0 72 =
        (false, setError emptyAckEngine .BUS_NOT_INITIALIZED)
      ∧ requestFrom ackM emptyAckEngine 0 72 4 true =
        (false, setError emptyAckEngine .BUS_NOT_INITIALIZED)) :=
  ⟨by decide, claim_C1 ackM emptyAckEngine 0 72 0 5 300 (some [9, 9]) 2 4 true (by decide)⟩

/-- Counterexample to C1 as stated: on an uninitialized bus, `readBytes`
fails but the last error observed afterwards is `INVALID_PARAMETERS`, not
`BUS_NOT_INITIALIZED` (the guard overwrites the validation error). -/
theorem claim_C1_counterexample :
    isBusInitialized emptyAckEngine 0 = false
    ∧ (readBytes ackM emptyAckEngine 0 72 0 (some [9]) 1).1 = false
    ∧ (readBytes ackM emptyAckEngine 0 72 0 (some [9]) 1).2.2.last_error =
        I2CError.INVALID_PARAMETERS
    ∧ I2CError.INVALID_PARAMETERS ≠ I2CError.BUS_NOT_INITIALIZED := by
  decide


/-! ### Registry lemmas for `initBus` -/

/-- After `buses[b] = cfg`, looking up `b` yields `cfg`. -/
lemma busesFind_assign (m : Nat → Option I2CBusConfig) (b : Nat) (cfg : I2CBusConfig) :
    busesFind (busesAssign m b cfg) b = some cfg := by
  simp [busesFind, busesAssign]

/-- An already-initialized valid bus id short-circuits `initBus`. -/
lemma initBus_short {W : Type} (M : WireModel W) (e : Engine W) (b s c f : Nat)
    (hb : ¬ b > 1) (hi : isBusInitialized e b = true) :
    initBus M e b s c f = (true, e) := by
  rw [initBus]
  simp [hb, hi]

/-- A successful `initBus` call was on a valid bus id. -/
lemma initBus_success_le {W : Type} {M : WireModel W} {e : Engine W} {b s c f : Nat}
    (h : (initBus M e b s c f).1 = true) : ¬ b > 1 := by
  intro hb
  rw [initBus] at h
  simp [hb] at h

/-- A successful `initBus` call leaves the bus id initialized. -/
lemma initBus_success_init {W : Type} {M : WireModel W} {e : Engine W} {b s c f : Nat}
    (h : (initBus M e b s c f).1 = true) :
    isBusInitialized (initBus M e b s c f).2 b = true := by
  have hb : ¬ b > 1 := initBus_success_le h
  rw [initBus] at h ⊢
  simp only [if_neg hb] at h ⊢
  by_cases hi : isBusInitialized e b
  · simp [hi]
  · simp only [hi, Bool.false_eq_true, if_false] at h ⊢
    by_cases hr : (M.beginW (getWireState e (if b = 0 then 0 else 1)) s c f).1
    · simp only [hr, if_true]
      simp [isBusInitialized, busesFind, busesAssign, setError]
    · simp [hr] at h

/-- C5: once a bus id has been successfully initialized, any further
`initBus` on the same id — with arbitrary pins and frequency — returns true
and leaves the whole engine state exactly as the first call left it (so the
stored slot configuration is untouched and, the wire states being part of
the engine, the primitive's `begin` is not re-invoked). -/
theorem claim_C5 {W : Type} (M : WireModel W) (e : Engine W)
    (b sda1 scl1 f1 sda2 scl2 f2 : Nat)
    (h : (initBus M e b sda1 scl1 f1).1 = true) :
    initBus M (initBus M e b sda1 scl1 f1).2 b sda2 scl2 f2 =
      (true, (initBus M e b sda1 scl1 f1).2) := by
  exact initBus_short M _ b sda2 scl2 f2 (initBus_success_le h) (initBus_success_init h)

/-- Witness for C5: bus 0 initialized once with pins (21, 22) at 100 kHz,
then re-initialized with different pins and frequency. -/
theorem claim_C5_witness :
    (initBus ackM emptyAckEngine 0 21 22 100000).1 = true
    ∧ initBus ackM (initBus ackM emptyAckEngine 0 21 22 100000).2 0 4 5 400000 =
        (true, (initBus ackM emptyAckEngine 0 21 22 100000).2) :=
  ⟨by decide, claim_C5 ackM emptyAckEngine 0 21 22 100000 4 5 400000 (by decide)⟩

/-- C6: with the bus initialized, every register-level operation given a
device address `a = 0` or `a > 127` fails with `INVALID_PARAMETERS`, with a
final state equal to the input state except for the error field — in
particular the wire states are untouched, so the underlying bus primitive is
never invoked; addresses 1..127 pass validation untouched; and `initBus`
with a bus id above 1 fails with `INVALID_PARAMETERS` leaving the registry
(and the rest of the state) unchanged. -/
theorem claim_C6 {W : Type} (M : WireModel W) (e : Engine W) :
    (∀ b a reg v d16 buf len q stop,
      isBusInitialized e b = true → (a = 0 ∨ a > 127) →
      writeRegister M e b a reg v = (false, setError e .INVALID_PARAMETERS)
      ∧ writeRegister16 M e b a reg d16 = (false, setError e .INVALID_PARAMETERS)
      ∧ writeBytes M e b a reg buf = (false, setError e .INVALID_PARAMETERS)
      ∧ readRegister M e b a reg = (0, setError e .INVALID_PARAMETERS)
      ∧ readRegister16 M e b a reg = (0, setError e .INVALID_PARAMETERS)
      ∧ readBytes M e b a reg buf len = (false, buf, setError e .INVALID_PARAMETERS)
      ∧ isDevicePresent M e b a = (false, setError e .INVALID_PARAMETERS)
      ∧ beginTransmission M e b a = (false, setError e .INVALID_PARAMETERS)
      ∧ requestFrom M e b a q stop = (false, setError e .INVALID_PARAMETERS))
    ∧ (∀ b a, isBusInitialized e b = true → 1 ≤ a → a ≤ 127 →
        validateBusAndAddress e b a = (true, e))
    ∧ (∀ b s c f, b > 1 →
        initBus M e b s c f = (false, setError e .INVALID_PARAMETERS)) := by
  refine ⟨?_, ?_, ?_⟩
  · intro b a reg v d16 buf len q stop hb ha
    have hv : validateBusAndAddress e b a = (false, setError e .INVALID_PARAMETERS) := by
      rcases ha with h | h <;> simp [validateBusAndAddress, hb, h]
    refine ⟨?_, ?_, ?_, ?_, ?_, ?_, ?_, ?_, ?_⟩ <;>
      simp [writeRegister, writeRegister16, writeBytes, readRegister, readRegister16,
            readBytes, isDevicePresent, beginTransmission, requestFrom, hv]
  · intro b a hb h1 h127
    have h0 : ¬ (a = 0) := by omega
    have h2 : ¬ (a > 127) := by omega
    simp [validateBusAndAddress, hb, h0, h2]
  · intro b s c f hbig
    simp [initBus, hbig]

/-- Witness for C6 on a concrete initialized engine, at address 200 and at
bus id 2. -/
theorem claim_C6_witness :
    (isBusInitialized busyAckEngine 0 = true ∧ (200 = 0 ∨ 200 > 127))
    ∧ (writeRegister ackM busyAckEngine 0 200 0 5 =
        (false, setError busyAckEngine .INVALID_PARAMETERS)
      ∧ writeRegister16 ackM busyAckEngine 0 200 0 300 =
        (false, setError busyAckEngine .INVALID_PARAMETERS)
      ∧ writeBytes ackM busyAckEngine 0 200 0 (some [9]) =
        (false, setError busyAckEngine .INVALID_PARAMETERS)
      ∧ readRegister ackM busyAckEngine 0 200 0 =
        (0, setError busyAckEngine .INVALID_PARAMETERS)
      ∧ readRegister16 ackM busyAckEngine 0 200 0 =
        (0, setError busyAckEngine .INVALID_PARAMETERS)
      ∧ readBytes ackM busyAckEngine 0 200 0 (some [9]) 1 =
        (false, some [9], setError busyAckEngine .INVALID_PARAMETERS)
      ∧ isDevicePresent ackM busyAckEngine 0 200 =
        (false, setError busyAckEngine .INVALID_PARAMETERS)
      ∧ beginTransmission ackM busyAckEngine 0 200 =
        (false, setError busyAckEngine .INVALID_PARAMETERS)
      ∧ requestFrom ackM busyAckEngine 0 200 4 true =
        (false, setError busyAckEngine .INVALID_PARAMETERS))
    ∧ validateBusAndAddress busyAckEngine 0 127 = (true, busyAckEngine)
    ∧ initBus ackM busyAckEngine 2 1 2 3 =
        (false, setError busyAckEngine .INVALID_PARAMETERS) :=
  ⟨⟨by decide, Or.inr (by decide)⟩,
   (claim_C6 ackM busyAckEngine).1 0 200 0 5 300 (some [9]) 1 4 true
     (by decide) (Or.inr (by decide)),
   (claim_C6 ackM busyAckEngine).2.1 0 127 (by decide) (by decide) (by decide),
   (claim_C6 ackM busyAckEngine).2.2 2 1 2 3 (by decide)⟩

/-- C4: for any wire primitive and any read operation that passes
validation and whose write phase is acknowledged, if `requestFrom` reports
a byte count different from the one requested, the operation fails with
last error `TIMEOUT` and the caller's buffer is returned untouched (for
`readBytes`) or zero is returned (for `readRegister` / `readRegister16`);
bytes are copied only when the count matches exactly. -/
theorem claim_C4 :
    (∀ (W : Type) (M : WireModel W) (e : Engine W) (b a reg : Nat) (buf : List Nat)
      (len widx r : Nat) (w3 w4 : W),
      (validateBusAndAddress e b a).1 = true →
      getBus e b = some widx →
      len ≠ 0 →
      M.endTransmission (M.write (M.beginTransmission (getWireState e widx) a) reg)
        false = (0, w3) →
      M.requestFrom w3 a (len % 256) true = (r, w4) →
      r ≠ len →
      readBytes M e b a reg (some buf) len =
        (false, some buf, setError (setWireState e widx w4) .TIMEOUT))
    ∧ (∀ (W : Type) (M : WireModel W) (e : Engine W) (b a reg : Nat)
      (widx r : Nat) (w3 w4 : W),
      (validateBusAndAddress e b a).1 = true →
      getBus e b = some widx →
      M.endTransmission (M.write (M.beginTransmission (getWireState e widx) a) reg)
        false = (0, w3) →
      M.requestFrom w3 a 1 true = (r, w4) →
      r ≠ 1 →
      readRegister M e b a reg = (0, setError (setWireState e widx w4) .TIMEOUT))
    ∧ (∀ (W : Type) (M : WireModel W) (e : Engine W) (b a reg : Nat)
      (widx r : Nat) (w3 w4 : W),
      (validateBusAndAddress e b a).1 = true →
      getBus e b = some widx →
      M.endTransmission (M.write (M.beginTransmission (getWireState e widx) a) reg)
        false = (0, w3) →
      M.requestFrom w3 a 2 true = (r, w4) →
      r ≠ 2 →
      readRegister16 M e b a reg = (0, setError (setWireState e widx w4) .TIMEOUT)) := by
  refine ⟨?_, ?_, ?_⟩
  · intro W M e b a reg buf len widx r w3 w4 hv hg hlen hend hreq hr
    have hvp := validate_pass hv
    simp [readBytes, hvp, hg, hlen, hend, hreq, hr]
  · intro W M e b a reg widx r w3 w4 hv hg hend hreq hr
    have hvp := validate_pass hv
    simp [readRegister, hvp, hg, hend, hreq, hr]
  · intro W M e b a reg widx r w3 w4 hv hg hend hreq hr
    have hvp := validate_pass hv
    simp [readRegister16, hvp, hg, hend, hreq, hr]

/-- Engine over the short-read double: bus 0 initialized, the primitive
always reporting 3 bytes received. -/
def shortEngine : Engine ShortWire :=
  (initBus shortM (mkEngine { ret := 3, rx := [1, 2, 3] } { ret := 3, rx := [] })
    0 21 22 100000).2

/-- Witness for C4: requesting 4 (`readBytes`), 1 (`readRegister`) and 2
(`readRegister16`) bytes while the double reports 3. -/
theorem claim_C4_witness :
    ((3 : Nat) ≠ 4 ∧ (3 : Nat) ≠ 1 ∧ (3 : Nat) ≠ 2)
    ∧ readBytes shortM shortEngine 0 72 0 (some [9, 9, 9, 9]) 4 =
        (false, some [9, 9, 9, 9],
         setError (setWireState shortEngine 0 shortEngine.wire0) .TIMEOUT)
    ∧ readRegister shortM shortEngine 0 72 0 =
        (0, setError (setWireState shortEngine 0 shortEngine.wire0) .TIMEOUT)
    ∧ readRegister16 shortM shortEngine 0 72 0 =
        (0, setError (setWireState shortEngine 0 shortEngine.wire0) .TIMEOUT) :=
  ⟨⟨by decide, by decide, by decide⟩,
   claim_C4.1 ShortWire shortM shortEngine 0 72 0 [9, 9, 9, 9] 4 0 3
     shortEngine.wire0 shortEngine.wire0 (by decide) (by decide) (by decide)
     (by decide) (by decide) (by decide),
   claim_C4.2.1 ShortWire shortM shortEngine 0 72 0 0 3
     shortEngine.wire0 shortEngine.wire0 (by decide) (by decide) (by decide)
     (by decide) (by decide),
   claim_C4.2.2 ShortWire shortM shortEngine 0 72 0 0 3
     shortEngine.wire0 shortEngine.wire0 (by decide) (by decide) (by decide)
     (by decide) (by decide)⟩

/-! ### The probe loop over the acknowledgment oracle -/

@[simp] lemma recordDevice_wire0 {W : Type} (e : Engine W) (b a n : Nat) :
    (recordDevice e b a n).wire0 = e.wire0 := by
  unfold recordDevice
  split <;> rfl

@[simp] lemma wire0_setWireState0 {W : Type} (e : Engine W) (w : W) :
    (setWireState e 0 w).wire0 = w := by
  simp [setWireState]

/-- Over the acknowledgment oracle, the probe loop of `scanBus` probes the
given addresses in order, collects exactly those in the oracle's ack set,
and fires one device-found hook invocation per collected address. -/
lemma scanProbe_ack (b now : Nat) (addrs : List Nat) :
    ∀ (e : Engine AckWire) (ps acks : List Nat),
      e.wire0 = { acks := acks, cur := none, probes := ps } →
      (scanProbe ackM 0 b now e addrs).1 = addrs.filter (fun a => acks.contains a)
      ∧ (scanProbe ackM 0 b now e addrs).2.1.wire0 =
          { acks := acks, cur := none, probes := ps ++ addrs }
      ∧ (scanProbe ackM 0 b now e addrs).2.2 =
          (addrs.filter (fun a => acks.contains a)).map
            (fun a => Event.deviceFound b a) := by
  induction addrs with
  | nil =>
    intro e ps acks hw
    simp [scanProbe, hw]
  | cons a rest ih =>
    intro e ps acks hw
    rw [show scanProbe ackM 0 b now e (a :: rest) =
      (if acks.contains a then
        (a :: (scanProbe ackM 0 b now (recordDevice (setWireState e 0
            { acks := acks, cur := none, probes := ps ++ [a] }) b a now) rest).1,
         (scanProbe ackM 0 b now (recordDevice (setWireState e 0
            { acks := acks, cur := none, probes := ps ++ [a] }) b a now) rest).2.1,
         Event.deviceFound b a :: (scanProbe ackM 0 b now (recordDevice (setWireState e 0
            { acks := acks, cur := none, probes := ps ++ [a] }) b a now) rest).2.2)
      else
        scanProbe ackM 0 b now (setWireState e 0
          { acks := acks, cur := none, probes := ps ++ [a] }) rest) from by
      simp only [scanProbe, ackM, getWireState, hw]
      by_cases hc : acks.contains a <;> simp [hc]]
    by_cases hc : acks.contains a
    · have hstep := ih (recordDevice (setWireState e 0
        { acks := acks, cur := none, probes := ps ++ [a] }) b a now)
        (ps ++ [a]) acks (by simp)
      simp only [hc, if_true, List.filter_cons, reduceIte]
      refine ⟨by rw [hstep.1], ?_, by rw [hstep.2.2]; simp⟩
      rw [hstep.2.1]
      simp
    · have hc' : acks.contains a = false := by simpa using hc
      have hstep := ih (setWireState e 0
        { acks := acks, cur := none, probes := ps ++ [a] })
        (ps ++ [a]) acks (by simp)
      simp only [hc', Bool.false_eq_true, if_false, List.filter_cons, reduceIte]
      refine ⟨by rw [hstep.1], ?_, by rw [hstep.2.2]⟩
      rw [hstep.2.1]
      simp

/-- The reconciliation loop only ever fires device-lost invocations. -/
lemma reconcile_filter_found (found : List Nat) (b : Nat) :
    ∀ ds : List I2CDeviceInfo,
      ((reconcileLost found b ds).2).filter Event.isFound = [] := by
  intro ds
  induction ds with
  | nil => simp [reconcileLost]
  | cons d rest ih =>
    simp only [reconcileLost]
    split
    · simp [Event.isFound, ih]
    · simpa using ih

/-- Family of engines for the scan claims: bus 0 initialized over an oracle
wire with ack set `acks` and probe history `ps`, arbitrary device directory
and prior error. -/
def scanEngine (acks ps : List Nat) (ds : List I2CDeviceInfo) (err : I2CError) :
    Engine AckWire :=
  { buses := fun b => if b = 0 then
      some { sda_pin := 21, scl_pin := 22, frequency := 100000,
             wire_instance := some 0, initialized := true }
    else none,
    known_devices := ds, i2c_timeout := 1000, last_error := err,
    wire0 := { acks := acks, cur := none, probes := ps }, wire1 := ackWire [] }

/-- C7: `scanBus` on an initialized bus probes exactly the addresses 1..126
(the sweep never probes 127, although validation accepts 127 for explicit
operations), returns exactly the addresses the primitive acknowledged,
fires the device-found hook once per returned address, and finishes with
last error `SUCCESS`. -/
theorem claim_C7 (acks ps : List Nat) (ds : List I2CDeviceInfo) (err : I2CError)
    (now : Nat) :
    scanAddresses = List.range' 1 126
    ∧ (scanBus ackM (scanEngine acks ps ds err) 0 now).1 =
        scanAddresses.filter (fun a => acks.contains a)
    ∧ (scanBus ackM (scanEngine acks ps ds err) 0 now).2.1.wire0.probes =
        ps ++ scanAddresses
    ∧ (scanBus ackM (scanEngine acks ps ds err) 0 now).2.2.filter Event.isFound =
        (scanBus ackM (scanEngine acks ps ds err) 0 now).1.map
          (fun a => Event.deviceFound 0 a)
    ∧ (scanBus ackM (scanEngine acks ps ds err) 0 now).2.1.last_error =
        I2CError.SUCCESS
    ∧ (validateBusAndAddress (scanEngine acks ps ds err) 0 127).1 = true := by
  have hinit : isBusInitialized (scanEngine acks ps ds err) 0 = true := by
    simp [isBusInitialized, busesFind, scanEngine]
  have hbus : getBus (scanEngine acks ps ds err) 0 = some 0 := by
    simp [getBus, busesFind, scanEngine]
  have hp := scanProbe_ack 0 now scanAddresses (scanEngine acks ps ds err) ps acks rfl
  simp only [scanBus, hinit, hbus, Bool.not_true, Bool.false_eq_true, if_false]
  refine ⟨rfl, hp.1, ?_, ?_, by simp [setError], ?_⟩
  · have : (setError { (scanProbe ackM 0 0 now (scanEngine acks ps ds err)
        scanAddresses).2.1 with
        known_devices := (reconcileLost (scanProbe ackM 0 0 now
          (scanEngine acks ps ds err) scanAddresses).1 0
          (scanProbe ackM 0 0 now (scanEngine acks ps ds err)
            scanAddresses).2.1.known_devices).1 }
        I2CError.SUCCESS).wire0 =
      (scanProbe ackM 0 0 now (scanEngine acks ps ds err) scanAddresses).2.1.wire0 :=
      rfl
    rw [this, hp.2.1]
  · rw [List.filter_append, hp.2.2, reconcile_filter_found, List.append_nil, hp.1]
    rw [List.filter_map]
    simp [Event.isFound, Function.comp]
  · simp [validateBusAndAddress, hinit]

/-! ### Round trips over the register-storing double -/

/-- A fresh register-storing wire over the register file `f`. -/
def regWireInit (f : Nat → Nat → List Nat) : RegWire :=
  { regs := f, txTarget := none, txQueue := [], ptrReg := 0, rxQueue := [] }

/-- Engine over register-storing doubles with both buses initialized. -/
def regEngine (f g : Nat → Nat → List Nat) : Engine RegWire :=
  { buses := fun b =>
      if b = 0 then
        some { sda_pin := 21, scl_pin := 22, frequency := 100000,
               wire_instance := some 0, initialized := true }
      else if b = 1 then
        some { sda_pin := 25, scl_pin := 26, frequency := 100000,
               wire_instance := some 1, initialized := true }
      else none,
    known_devices := [], i2c_timeout := 1000, last_error := .SUCCESS,
    wire0 := regWireInit f, wire1 := regWireInit g }

/-- `(hi << 8) | lo` assembles the two bytes of `hi * 256 + lo`. -/
lemma shift_or_byte (hi lo : Nat) (h : lo < 256) : (hi <<< 8) ||| lo = hi * 256 + lo := by
  have h' : lo < 2 ^ 8 := by omega
  rw [Nat.shiftLeft_eq, Nat.mul_comm hi (2 ^ 8), ← Nat.mul_add_lt_is_or h' hi]

lemma c8_byte_bus0 (f g : Nat → Nat → List Nat) (a r v : Nat)
    (ha1 : 1 ≤ a) (ha2 : a ≤ 127) (hr : r < 256) (hv : v < 256) :
    (writeRegister regM (regEngine f g) 0 a r v).1 = true
    ∧ (readRegister regM (writeRegister regM (regEngine f g) 0 a r v).2 0 a r).1 = v := by
  have h0 : ¬ (a = 0) := by omega
  have h127 : ¬ (a > 127) := by omega
  have hvv : validateBusAndAddress (regEngine f g) 0 a = (true, regEngine f g) := by
    simp [validateBusAndAddress, isBusInitialized, busesFind, regEngine, h0, h127]
  have hgb : getBus (regEngine f g) 0 = some 0 := by
    simp [getBus, busesFind, regEngine]
  have hgw : getWireState (regEngine f g) 0 = regWireInit f := rfl
  have hw : writeRegister regM (regEngine f g) 0 a r v =
      (true, setError (setWireState (regEngine f g) 0
        { regs := updateRegs f a r [v], txTarget := none, txQueue := [],
          ptrReg := r, rxQueue := [] }) .SUCCESS) := by
    rw [writeRegister]
    simp only [hvv, hgb, hgw]
    simp [regM, regWireInit, Nat.mod_eq_of_lt hr, Nat.mod_eq_of_lt hv]
  rw [hw]
  refine ⟨rfl, ?_⟩
  set e2 : Engine RegWire := setError (setWireState (regEngine f g) 0
    { regs := updateRegs f a r [v], txTarget := none, txQueue := [],
      ptrReg := r, rxQueue := [] }) .SUCCESS with he2
  have hvv2 : validateBusAndAddress e2 0 a = (true, e2) := by
    have : isBusInitialized e2 0 = true := by
      simp [he2, isBusInitialized, busesFind, regEngine, setError, setWireState]
    simp [validateBusAndAddress, this, h0, h127]
  have hgb2 : getBus e2 0 = some 0 := by
    simp [he2, getBus, busesFind, regEngine, setError, setWireState]
  have hgw2 : getWireState e2 0 =
      { regs := updateRegs f a r [v], txTarget := none, txQueue := [],
        ptrReg := r, rxQueue := [] } := by
    simp [he2]
  rw [readRegister]
  simp only [hvv2, hgb2, hgw2]
  simp [regM, updateRegs, Nat.mod_eq_of_lt hr]

lemma c8_byte_bus1 (f g : Nat → Nat → List Nat) (a r v : Nat)
    (ha1 : 1 ≤ a) (ha2 : a ≤ 127) (hr : r < 256) (hv : v < 256) :
    (writeRegister regM (regEngine f g) 1 a r v).1 = true
    ∧ (readRegister regM (writeRegister regM (regEngine f g) 1 a r v).2 1 a r).1 = v := by
  have h0 : ¬ (a = 0) := by omega
  have h127 : ¬ (a > 127) := by omega
  have hvv : validateBusAndAddress (regEngine f g) 1 a = (true, regEngine f g) := by
    simp [validateBusAndAddress, isBusInitialized, busesFind, regEngine, h0, h127]
  have hgb : getBus (regEngine f g) 1 = some 1 := by
    simp [getBus, busesFind, regEngine]
  have hgw : getWireState (regEngine f g) 1 = regWireInit g := rfl
  have hw : writeRegister regM (regEngine f g) 1 a r v =
      (true, setError (setWireState (regEngine f g) 1
        { regs := updateRegs g a r [v], txTarget := none, txQueue := [],
          ptrReg := r, rxQueue := [] }) .SUCCESS) := by
    rw [writeRegister]
    simp only [hvv, hgb, hgw]
    simp [regM, regWireInit, Nat.mod_eq_of_lt hr, Nat.mod_eq_of_lt hv]
  rw [hw]
  refine ⟨rfl, ?_⟩
  set e2 : Engine RegWire := setError (setWireState (regEngine f g) 1
    { regs := updateRegs g a r [v], txTarget := none, txQueue := [],
      ptrReg := r, rxQueue := [] }) .SUCCESS with he2
  have hvv2 : validateBusAndAddress e2 1 a = (true, e2) := by
    have : isBusInitialized e2 1 = true := by
      simp [he2, isBusInitialized, busesFind, regEngine, setError, setWireState]
    simp [validateBusAndAddress, this, h0, h127]
  have hgb2 : getBus e2 1 = some 1 := by
    simp [he2, getBus, busesFind, regEngine, setError, setWireState]
  have hgw2 : getWireState e2 1 =
      { regs := updateRegs g a r [v], txTarget := none, txQueue := [],
        ptrReg := r, rxQueue := [] } := by
    simp [he2, setError, setWireState, getWireState]
  rw [readRegister]
  simp only [hvv2, hgb2, hgw2]
  simp [regM, updateRegs, Nat.mod_eq_of_lt hr]

lemma c8_word_bus0 (f g : Nat → Nat → List Nat) (a r d : Nat)
    (ha1 : 1 ≤ a) (ha2 : a ≤ 127) (hr : r < 256) (hd : d < 65536) :
    (writeRegister16 regM (regEngine f g) 0 a r d).1 = true
    ∧ (getWireState (writeRegister16 regM (regEngine f g) 0 a r d).2 0).regs a r
        = [d / 256, d % 256]
    ∧ (readRegister16 regM (writeRegister16 regM (regEngine f g) 0 a r d).2 0 a r).1
        = d := by
  have h0 : ¬ (a = 0) := by omega
  have h127 : ¬ (a > 127) := by omega
  have hhi : d / 256 < 256 := by omega
  have hlo : d % 256 < 256 := Nat.mod_lt _ (by omega)
  have hvv : validateBusAndAddress (regEngine f g) 0 a = (true, regEngine f g) := by
    simp [validateBusAndAddress, isBusInitialized, busesFind, regEngine, h0, h127]
  have hgb : getBus (regEngine f g) 0 = some 0 := by
    simp [getBus, busesFind, regEngine]
  have hgw : getWireState (regEngine f g) 0 = regWireInit f := rfl
  have hw : writeRegister16 regM (regEngine f g) 0 a r d =
      (true, setError (setWireState (regEngine f g) 0
        { regs := updateRegs f a r [d / 256, d % 256], txTarget := none, txQueue := [],
          ptrReg := r, rxQueue := [] }) .SUCCESS) := by
    rw [writeRegister16]
    simp only [hvv, hgb, hgw]
    simp [regM, regWireInit, Nat.mod_eq_of_lt hr, Nat.mod_eq_of_lt hhi,
          Nat.mod_eq_of_lt hlo]
  rw [hw]
  refine ⟨rfl, by simp [updateRegs], ?_⟩
  set e2 : Engine RegWire := setError (setWireState (regEngine f g) 0
    { regs := updateRegs f a r [d / 256, d % 256], txTarget := none, txQueue := [],
      ptrReg := r, rxQueue := [] }) .SUCCESS with he2
  have hvv2 : validateBusAndAddress e2 0 a = (true, e2) := by
    have : isBusInitialized e2 0 = true := by
      simp [he2, isBusInitialized, busesFind, regEngine, setError, setWireState]
    simp [validateBusAndAddress, this, h0, h127]
  have hgb2 : getBus e2 0 = some 0 := by
    simp [he2, getBus, busesFind, regEngine, setError, setWireState]
  have hgw2 : getWireState e2 0 =
      { regs := updateRegs f a r [d / 256, d % 256], txTarget := none, txQueue := [],
        ptrReg := r, rxQueue := [] } := by
    simp [he2]
  rw [readRegister16]
  simp only [hvv2, hgb2, hgw2]
  simp [regM, updateRegs, Nat.mod_eq_of_lt hr]
  rw [shift_or_byte _ _ hlo]
  omega

lemma c8_word_bus1 (f g : Nat → Nat → List Nat) (a r d : Nat)
    (ha1 : 1 ≤ a) (ha2 : a ≤ 127) (hr : r < 256) (hd : d < 65536) :
    (writeRegister16 regM (regEngine f g) 1 a r d).1 = true
    ∧ (getWireState (writeRegister16 regM (regEngine f g) 1 a r d).2 1).regs a r
        = [d / 256, d % 256]
    ∧ (readRegister16 regM (writeRegister16 regM (regEngine f g) 1 a r d).2 1 a r).1
        = d := by
  have h0 : ¬ (a = 0) := by omega
  have h127 : ¬ (a > 127) := by omega
  have hhi : d / 256 < 256 := by omega
  have hlo : d % 256 < 256 := Nat.mod_lt _ (by omega)
  have hvv : validateBusAndAddress (regEngine f g) 1 a = (true, regEngine f g) := by
    simp [validateBusAndAddress, isBusInitialized, busesFind, regEngine, h0, h127]
  have hgb : getBus (regEngine f g) 1 = some 1 := by
    simp [getBus, busesFind, regEngine]
  have hgw : getWireState (regEngine f g) 1 = regWireInit g := rfl
  have hw : writeRegister16 regM (regEngine f g) 1 a r d =
      (true, setError (setWireState (regEngine f g) 1
        { regs := updateRegs g a r [d / 256, d % 256], txTarget := none, txQueue := [],
          ptrReg := r, rxQueue := [] }) .SUCCESS) := by
    rw [writeRegister16]
    simp only [hvv, hgb, hgw]
    simp [regM, regWireInit, Nat.mod_eq_of_lt hr, Nat.mod_eq_of_lt hhi,
          Nat.mod_eq_of_lt hlo]
  rw [hw]
  refine ⟨rfl, by simp [updateRegs, getWireState, setError, setWireState], ?_⟩
  set e2 : Engine RegWire := setError (setWireState (regEngine f g) 1
    { regs := updateRegs g a r [d / 256, d % 256], txTarget := none, txQueue := [],
      ptrReg := r, rxQueue := [] }) .SUCCESS with he2
  have hvv2 : validateBusAndAddress e2 1 a = (true, e2) := by
    have : isBusInitialized e2 1 = true := by
      simp [he2, isBusInitialized, busesFind, regEngine, setError, setWireState]
    simp [validateBusAndAddress, this, h0, h127]
  have hgb2 : getBus e2 1 = some 1 := by
    simp [he2, getBus, busesFind, regEngine, setError, setWireState]
  have hgw2 : getWireState e2 1 =
      { regs := updateRegs g a r [d / 256, d % 256], txTarget := none, txQueue := [],
        ptrReg := r, rxQueue := [] } := by
    simp [he2, setError, setWireState, getWireState]
  rw [readRegister16]
  simp only [hvv2, hgb2, hgw2]
  simp [regM, updateRegs, Nat.mod_eq_of_lt hr]
  rw [shift_or_byte _ _ hlo]
  omega

/-- C8: over a register-storing test double, on either initialized bus and
for every valid address, register and byte, a successful `writeRegister`
followed by `readRegister` returns the written byte; `writeRegister16`
stores the high byte before the low byte (the double's register holds
`[d >> 8, d & 0xFF]`), and `readRegister16` — which takes the first
received byte as the high byte — returns the written word. -/
theorem claim_C8 (f g : Nat → Nat → List Nat) (b a r v d : Nat)
    (hb : b ≤ 1) (ha1 : 1 ≤ a) (ha2 : a ≤ 127) (hr : r < 256) (hv : v < 256)
    (hd : d < 65536) :
    ((writeRegister regM (regEngine f g) b a r v).1 = true
      ∧ (readRegister regM (writeRegister regM (regEngine f g) b a r v).2 b a r).1 = v)
    ∧ ((writeRegister16 regM (regEngine f g) b a r d).1 = true
      ∧ (getWireState (writeRegister16 regM (regEngine f g) b a r d).2 b).regs a r
          = [d / 256, d % 256]
      ∧ (readRegister16 regM (writeRegister16 regM (regEngine f g) b a r d).2 b a r).1
          = d) := by
  interval_cases b
  · exact ⟨c8_byte_bus0 f g a r v ha1 ha2 hr hv, c8_word_bus0 f g a r d ha1 ha2 hr hd⟩
  · exact ⟨c8_byte_bus1 f g a r v ha1 ha2 hr hv, c8_word_bus1 f g a r d ha1 ha2 hr hd⟩

/-- Witness for C8: writing 0xFF to register 0x00 of device 0x48 on bus 0
and reading it back; writing 0xBEEF and reading it back as a word. -/
theorem claim_C8_witness :
    ((writeRegister regM (regEngine (fun _ _ => []) (fun _ _ => [])) 0 72 0 255).1 = true
      ∧ (readRegister regM
          (writeRegister regM (regEngine (fun _ _ => []) (fun _ _ => [])) 0 72 0 255).2
          0 72 0).1 = 255)
    ∧ ((writeRegister16 regM (regEngine (fun _ _ => []) (fun _ _ => [])) 0 72 0 48879).1
          = true
      ∧ (getWireState
          (writeRegister16 regM (regEngine (fun _ _ => []) (fun _ _ => [])) 0 72 0 48879).2
          0).regs 72 0 = [190, 239]
      ∧ (readRegister16 regM
          (writeRegister16 regM (regEngine (fun _ _ => []) (fun _ _ => [])) 0 72 0 48879).2
          0 72 0).1 = 48879) :=
  claim_C8 (fun _ _ => []) (fun _ _ => []) 0 72 0 255 48879 (by decide) (by decide)
    (by decide) (by decide) (by decide) (by decide)

/-- C9: the write-bytes handler parses its data parameter as a
comma-separated list of hex byte literals with empty and whitespace-only
tokens skipped — `"0x01, 0x02,,0x03"` parses to `[0x01, 0x02, 0x03]` — and
whenever the parsed list is empty the handler replies 400 with the engine
(wire states included) untouched, i.e. no transaction is performed. -/
theorem claim_C9 :
    parseHexBytes "0x01, 0x02,,0x03".data = [1, 2, 3]
    ∧ (∀ (W : Type) (M : WireModel W) (e : Engine W)
        (ps : List (String × String)) (bs das ras ds : String),
        getParam ps "bus_id" = some bs →
        getParam ps "device_addr" = some das →
        getParam ps "reg_addr" = some ras →
        getParam ps "data" = some ds →
        parseHexBytes ds.data = [] →
        handleWriteBytes M e ps = (400, e)) := by
  refine ⟨by decide, ?_⟩
  intro W M e ps bs das ras ds h1 h2 h3 h4 h5
  simp [handleWriteBytes, h1, h2, h3, h4, h5]

/-- Witness for C9's empty-parse branch: a data parameter of only commas
and whitespace. -/
theorem claim_C9_witness :
    parseHexBytes " , ,".data = []
    ∧ handleWriteBytes ackM emptyAckEngine
        [("bus_id", "0"), ("device_addr", "0x48"), ("reg_addr", "0x00"),
         ("data", " , ,")] =
      (400, emptyAckEngine) :=
  ⟨by decide,
   claim_C9.2 AckWire ackM emptyAckEngine
     [("bus_id", "0"), ("device_addr", "0x48"), ("reg_addr", "0x00"),
      ("data", " , ,")]
     "0" "0x48" "0x00" " , ," (by decide) (by decide) (by decide) (by decide)
     (by decide)⟩

/-- Request parameters probing device 0x48 on bus 0. -/
def pingParams : List (String × String) :=
  [("bus_id", "0"), ("device_addr", "0x48")]

/-- Request parameters with device address 0xC8 = 200 (invalid: ≥ 128). -/
def pingParamsBad : List (String × String) :=
  [("bus_id", "0"), ("device_addr", "0xC8")]

/-- C10: when both `bus_id` and `device_addr` are present, the ping handler
always replies HTTP 200 with `success = true` — even on an uninitialized
bus or an out-of-range device address — and those failures surface only as
`present = false`, a response identical to that of a valid probe that got
no acknowledgment. -/
theorem claim_C10 :
    (∀ (W : Type) (M : WireModel W) (e : Engine W)
      (ps : List (String × String)) (bs das : String),
      getParam ps "bus_id" = some bs →
      getParam ps "device_addr" = some das →
      (handlePingDevice M e ps).1.status = 200
      ∧ (handlePingDevice M e ps).1.success = true)
    ∧ (handlePingDevice ackM emptyAckEngine pingParams).1 =
        { status := 200, success := true, present := some false }
    ∧ (handlePingDevice ackM busyAckEngine pingParamsBad).1 =
        { status := 200, success := true, present := some false }
    ∧ (handlePingDevice ackM busyAckEngine pingParams).1 =
        { status := 200, success := true, present := some false } := by
  refine ⟨?_, by decide, by decide, by decide⟩
  intro W M e ps bs das h1 h2
  simp [handlePingDevice, h1, h2]

/-- Witness for C10's universally quantified part, at the concrete
uninitialized engine. -/
theorem claim_C10_witness :
    (handlePingDevice ackM emptyAckEngine pingParams).1.status = 200
    ∧ (handlePingDevice ackM emptyAckEngine pingParams).1.success = true :=
  claim_C10.1 AckWire ackM emptyAckEngine pingParams "0" "0x48"
    (by decide) (by decide)

/-! ### Last-error write/preserve behaviour of each operation -/

/-- Validation on an uninitialized bus. -/
lemma validate_fail_uninit {W : Type} {e : Engine W} {b : Nat} (a : Nat)
    (h : isBusInitialized e b = false) :
    validateBusAndAddress e b a = (false, setError e .BUS_NOT_INITIALIZED) := by
  simp [validateBusAndAddress, h]

/-- Validation with an out-of-range address. -/
lemma validate_fail_addr {W : Type} {e : Engine W} {b a : Nat}
    (h1 : isBusInitialized e b = true) (h2 : a = 0 ∨ a > 127) :
    validateBusAndAddress e b a = (false, setError e .INVALID_PARAMETERS) := by
  rcases h2 with h | h <;> simp [validateBusAndAddress, h1, h]

/-- Validation success, with the engine untouched. -/
lemma validate_pass_of {W : Type} {e : Engine W} {b a : Nat}
    (h1 : isBusInitialized e b = true) (h2 : ¬ a = 0) (h3 : ¬ a > 127) :
    validateBusAndAddress e b a = (true, e) := by
  simp [validateBusAndAddress, h1, h2, h3]

lemma indep_writeRegister {W : Type} (M : WireModel W) (e : Engine W)
    (b a reg v : Nat) (x : I2CError)
    (hwf : isBusInitialized e b = true → getBus e b ≠ none) :
    (writeRegister M (setError e x) b a reg v).2.last_error =
      (writeRegister M e b a reg v).2.last_error := by
  by_cases h1 : isBusInitialized e b
  · by_cases h2 : a = 0 ∨ a > 127
    · simp [writeRegister, validate_fail_addr h1 h2,
            validate_fail_addr (e := setError e x) h1 h2]
    · push_neg at h2
      have h127 : ¬ a > 127 := by omega
      cases hgb : getBus e b with
      | none => exact absurd hgb (hwf h1)
      | some widx =>
        simp only [writeRegister, validate_pass_of h1 h2.1 h127,
          validate_pass_of (e := setError e x) h1 h2.1 h127,
          getBus_setError, hgb, getWireState_setError]
        rcases hE : M.endTransmission
          (M.write (M.write (M.beginTransmission (getWireState e widx) a) reg) v)
          true with ⟨st, w3⟩
        by_cases hst : st = 0 <;> simp [hst]
  · have h1' : isBusInitialized e b = false := by simpa using h1
    simp [writeRegister, validate_fail_uninit a h1',
          validate_fail_uninit (e := setError e x) a h1']

lemma indep_readRegister {W : Type} (M : WireModel W) (e : Engine W)
    (b a reg : Nat) (x : I2CError)
    (hwf : isBusInitialized e b = true → getBus e b ≠ none) :
    (readRegister M (setError e x) b a reg).2.last_error =
      (readRegister M e b a reg).2.last_error := by
  by_cases h1 : isBusInitialized e b
  · by_cases h2 : a = 0 ∨ a > 127
    · simp [readRegister, validate_fail_addr h1 h2,
            validate_fail_addr (e := setError e x) h1 h2]
    · push_neg at h2
      have h127 : ¬ a > 127 := by omega
      cases hgb : getBus e b with
      | none => exact absurd hgb (hwf h1)
      | some widx =>
        simp only [readRegister, validate_pass_of h1 h2.1 h127,
          validate_pass_of (e := setError e x) h1 h2.1 h127,
          getBus_setError, hgb, getWireState_setError]
        rcases hE : M.endTransmission
          (M.write (M.beginTransmission (getWireState e widx) a) reg)
          false with ⟨st, w3⟩
        by_cases hst : st = 0
        · simp only [hE, hst, getWireState_setWireState]
          rcases hq : M.requestFrom w3 a 1 true with ⟨cnt, w4⟩
          by_cases hcnt : cnt = 1 <;> simp [hcnt]
        · simp [hE, hst]
  · have h1' : isBusInitialized e b = false := by simpa using h1
    simp [readRegister, validate_fail_uninit a h1',
          validate_fail_uninit (e := setError e x) a h1']

lemma indep_writeRegister16 {W : Type} (M : WireModel W) (e : Engine W)
    (b a reg d : Nat) (x : I2CError)
    (hwf : isBusInitialized e b = true → getBus e b ≠ none) :
    (writeRegister16 M (setError e x) b a reg d).2.last_error =
      (writeRegister16 M e b a reg d).2.last_error := by
  by_cases h1 : isBusInitialized e b
  · by_cases h2 : a = 0 ∨ a > 127
    · simp [writeRegister16, validate_fail_addr h1 h2,
            validate_fail_addr (e := setError e x) h1 h2]
    · push_neg at h2
      have h127 : ¬ a > 127 := by omega
      cases hgb : getBus e b with
      | none => exact absurd hgb (hwf h1)
      | some widx =>
        simp only [writeRegister16, validate_pass_of h1 h2.1 h127,
          validate_pass_of (e := setError e x) h1 h2.1 h127,
          getBus_setError, hgb, getWireState_setError]
        rcases hE : M.endTransmission (M.write (M.write (M.write
          (M.beginTransmission (getWireState e widx) a) reg) (d / 256)) (d % 256))
          true with ⟨st, w3⟩
        by_cases hst : st = 0 <;> simp [hst]
  · have h1' : isBusInitialized e b = false := by simpa using h1
    simp [writeRegister16, validate_fail_uninit a h1',
          validate_fail_uninit (e := setError e x) a h1']

lemma indep_writeBytes {W : Type} (M : WireModel W) (e : Engine W)
    (b a reg : Nat) (buf : Option (List Nat)) (x : I2CError)
    (hwf : isBusInitialized e b = true → getBus e b ≠ none) :
    (writeBytes M (setError e x) b a reg buf).2.last_error =
      (writeBytes M e b a reg buf).2.last_error := by
  by_cases h1 : isBusInitialized e b
  · by_cases h2 : a = 0 ∨ a > 127
    · simp [writeBytes, validate_fail_addr h1 h2,
            validate_fail_addr (e := setError e x) h1 h2]
    · push_neg at h2
      have h127 : ¬ a > 127 := by omega
      by_cases hd : buf = none ∨ buf.getD [] = []
      · rcases hd with h | h <;>
          simp [writeBytes, validate_pass_of h1 h2.1 h127,
                validate_pass_of (e := setError e x) h1 h2.1 h127, h]
      · push_neg at hd
        cases hgb : getBus e b with
        | none => exact absurd hgb (hwf h1)
        | some widx =>
          simp only [writeBytes, validate_pass_of h1 h2.1 h127,
            validate_pass_of (e := setError e x) h1 h2.1 h127,
            getBus_setError, hgb, getWireState_setError]
          rcases hE : M.endTransmission ((buf.getD []).foldl M.write (M.write
            (M.beginTransmission (getWireState e widx) a) reg)) true with ⟨st, w3⟩
          by_cases hst : st = 0 <;> simp [hst, hd.1, hd.2]
  · have h1' : isBusInitialized e b = false := by simpa using h1
    simp [writeBytes, validate_fail_uninit a h1',
          validate_fail_uninit (e := setError e x) a h1']

lemma indep_readRegister16 {W : Type} (M : WireModel W) (e : Engine W)
    (b a reg : Nat) (x : I2CError)
    (hwf : isBusInitialized e b = true → getBus e b ≠ none) :
    (readRegister16 M (setError e x) b a reg).2.last_error =
      (readRegister16 M e b a reg).2.last_error := by
  by_cases h1 : isBusInitialized e b
  · by_cases h2 : a = 0 ∨ a > 127
    · simp [readRegister16, validate_fail_addr h1 h2,
            validate_fail_addr (e := setError e x) h1 h2]
    · push_neg at h2
      have h127 : ¬ a > 127 := by omega
      cases hgb : getBus e b with
      | none => exact absurd hgb (hwf h1)
      | some widx =>
        simp only [readRegister16, validate_pass_of h1 h2.1 h127,
          validate_pass_of (e := setError e x) h1 h2.1 h127,
          getBus_setError, hgb, getWireState_setError]
        rcases hE : M.endTransmission
          (M.write (M.beginTransmission (getWireState e widx) a) reg)
          false with ⟨st, w3⟩
        by_cases hst : st = 0
        · simp only [hE, hst, getWireState_setWireState]
          rcases hq : M.requestFrom w3 a 2 true with ⟨cnt, w4⟩
          by_cases hcnt : cnt = 2 <;> simp [hcnt]
        · simp [hE, hst]
  · have h1' : isBusInitialized e b = false := by simpa using h1
    simp [readRegister16, validate_fail_uninit a h1',
          validate_fail_uninit (e := setError e x) a h1']

lemma indep_readBytes {W : Type} (M : WireModel W) (e : Engine W)
    (b a reg : Nat) (buf : Option (List Nat)) (len : Nat) (x : I2CError)
    (hwf : isBusInitialized e b = true → getBus e b ≠ none) :
    (readBytes M (setError e x) b a reg buf len).2.2.last_error =
      (readBytes M e b a reg buf len).2.2.last_error := by
  by_cases h1 : isBusInitialized e b
  · by_cases h2 : a = 0 ∨ a > 127
    · simp [readBytes, validate_fail_addr h1 h2,
            validate_fail_addr (e := setError e x) h1 h2]
    · push_neg at h2
      have h127 : ¬ a > 127 := by omega
      by_cases hd : buf = none ∨ len = 0
      · rcases hd with h | h <;>
          simp [readBytes, validate_pass_of h1 h2.1 h127,
                validate_pass_of (e := setError e x) h1 h2.1 h127, h]
      · push_neg at hd
        cases hgb : getBus e b with
        | none => exact absurd hgb (hwf h1)
        | some widx =>
          simp only [readBytes, validate_pass_of h1 h2.1 h127,
            validate_pass_of (e := setError e x) h1 h2.1 h127,
            getBus_setError, hgb, getWireState_setError]
          rcases hE : M.endTransmission
            (M.write (M.beginTransmission (getWireState e widx) a) reg)
            false with ⟨st, w3⟩
          by_cases hst : st = 0
          · simp only [hE, hst, getWireState_setWireState, hd.1, hd.2]
            rcases hq : M.requestFrom w3 a (len % 256) true with ⟨cnt, w4⟩
            by_cases hcnt : cnt = len <;> simp [hcnt, hd.1, hd.2]
          · simp [hE, hst, hd.1, hd.2]
  · have h1' : isBusInitialized e b = false := by simpa using h1
    simp [readBytes, validate_fail_uninit a h1',
          validate_fail_uninit (e := setError e x) a h1']

lemma indep_endTransmission {W : Type} (M : WireModel W) (e : Engine W)
    (b : Nat) (stop : Bool) (x : I2CError)
    (hwf : isBusInitialized e b = true → getBus e b ≠ none) :
    (endTransmission M (setError e x) b stop).2.last_error =
      (endTransmission M e b stop).2.last_error := by
  by_cases h1 : isBusInitialized e b
  · cases hgb : getBus e b with
    | none => exact absurd hgb (hwf h1)
    | some widx =>
      simp only [endTransmission, isBusInit_setError, h1, getBus_setError, hgb,
        getWireState_setError, Bool.not_true, Bool.false_eq_true, if_false]
      rcases hE : M.endTransmission (getWireState e widx) stop with ⟨st, w3⟩
      by_cases hst : st = 0 <;> simp [hst]
  · have h1' : isBusInitialized e b = false := by simpa using h1
    simp [endTransmission, h1']

lemma indep_scanBus {W : Type} (M : WireModel W) (e : Engine W)
    (b now : Nat) (x : I2CError) :
    (scanBus M (setError e x) b now).2.1.last_error =
      (scanBus M e b now).2.1.last_error := by
  by_cases h1 : isBusInitialized e b
  · cases hgb : getBus e b with
    | none => simp [scanBus, h1, hgb]
    | some widx => simp [scanBus, h1, hgb]
  · have h1' : isBusInitialized e b = false := by simpa using h1
    simp [scanBus, h1']

lemma indep_initBus {W : Type} (M : WireModel W) (e : Engine W)
    (b s c f : Nat) (x : I2CError) (hi : isBusInitialized e b = false) :
    (initBus M (setError e x) b s c f).2.last_error =
      (initBus M e b s c f).2.last_error := by
  by_cases hb : b > 1
  · simp [initBus, hb]
  · simp only [initBus, if_neg hb, isBusInit_setError, hi, Bool.false_eq_true,
      if_false, getWireState_setError]
    by_cases hr : (M.beginW (getWireState e (if b = 0 then 0 else 1)) s c f).1 <;>
      simp [hr]

lemma preserve_isDevicePresent {W : Type} (M : WireModel W) (e : Engine W)
    (b a : Nat) (h1 : isBusInitialized e b = true) (h2 : ¬ a = 0) (h3 : ¬ a > 127) :
    (isDevicePresent M e b a).2.last_error = e.last_error := by
  simp only [isDevicePresent, validate_pass_of h1 h2 h3]
  cases hgb : getBus e b <;> simp [hgb]

lemma preserve_beginTransmission {W : Type} (M : WireModel W) (e : Engine W)
    (b a : Nat) (h1 : isBusInitialized e b = true) (h2 : ¬ a = 0) (h3 : ¬ a > 127) :
    (beginTransmission M e b a).2.last_error = e.last_error := by
  simp only [beginTransmission, validate_pass_of h1 h2 h3]
  cases hgb : getBus e b <;> simp [hgb]

lemma preserve_requestFrom {W : Type} (M : WireModel W) (e : Engine W)
    (b a q : Nat) (stop : Bool)
    (h1 : isBusInitialized e b = true) (h2 : ¬ a = 0) (h3 : ¬ a > 127) :
    (requestFrom M e b a q stop).2.last_error = e.last_error := by
  simp only [requestFrom, validate_pass_of h1 h2 h3]
  cases hgb : getBus e b <;> simp [hgb]

/-- C2 (amended): the last-error field is written by every call to
writeRegister, writeRegister16, writeBytes, readRegister, readRegister16,
readBytes, endTransmission and scanBus — the value observed afterwards does
not depend on the value before the call — and by initBus except on its
already-initialized short-circuit, which returns true leaving the whole
state (last error included) unchanged; isDevicePresent, beginTransmission
and requestFrom write it only when validation fails: whenever validation
passes (in particular on a successful probe or requestFrom) they leave the
last error exactly as it was, so the value then read via getLastError() was
written by an earlier call. (The independence parts assume the initialized
slot holds a non-null handle, which every slot stored by initBus does.) -/
theorem claim_C2 :
    (∀ (W : Type) (M : WireModel W) (e : Engine W) (b s c f : Nat),
      b ≤ 1 → isBusInitialized e b = true →
      initBus M e b s c f = (true, e))
    ∧ (∀ (W : Type) (M : WireModel W) (e : Engine W) (b a : Nat),
      isBusInitialized e b = true → ¬ a = 0 → ¬ a > 127 →
      (isDevicePresent M e b a).2.last_error = e.last_error)
    ∧ (∀ (W : Type) (M : WireModel W) (e : Engine W) (b a : Nat),
      isBusInitialized e b = true → ¬ a = 0 → ¬ a > 127 →
      (beginTransmission M e b a).2.last_error = e.last_error)
    ∧ (∀ (W : Type) (M : WireModel W) (e : Engine W) (b a q : Nat) (stop : Bool),
      isBusInitialized e b = true → ¬ a = 0 → ¬ a > 127 →
      (requestFrom M e b a q stop).2.last_error = e.last_error)
    ∧ (∀ (W : Type) (M : WireModel W) (e : Engine W) (b a reg v : Nat) (x : I2CError),
      (isBusInitialized e b = true → getBus e b ≠ none) →
      (writeRegister M (setError e x) b a reg v).2.last_error =
        (writeRegister M e b a reg v).2.last_error)
    ∧ (∀ (W : Type) (M : WireModel W) (e : Engine W) (b a reg d : Nat) (x : I2CError),
      (isBusInitialized e b = true → getBus e b ≠ none) →
      (writeRegister16 M (setError e x) b a reg d).2.last_error =
        (writeRegister16 M e b a reg d).2.last_error)
    ∧ (∀ (W : Type) (M : WireModel W) (e : Engine W) (b a reg : Nat)
        (buf : Option (List Nat)) (x : I2CError),
      (isBusInitialized e b = true → getBus e b ≠ none) →
      (writeBytes M (setError e x) b a reg buf).2.last_error =
        (writeBytes M e b a reg buf).2.last_error)
    ∧ (∀ (W : Type) (M : WireModel W) (e : Engine W) (b a reg : Nat) (x : I2CError),
      (isBusInitialized e b = true → getBus e b ≠ none) →
      (readRegister M (setError e x) b a reg).2.last_error =
        (readRegister M e b a reg).2.last_error)
    ∧ (∀ (W : Type) (M : WireModel W) (e : Engine W) (b a reg : Nat) (x : I2CError),
      (isBusInitialized e b = true → getBus e b ≠ none) →
      (readRegister16 M (setError e x) b a reg).2.last_error =
        (readRegister16 M e b a reg).2.last_error)
    ∧ (∀ (W : Type) (M : WireModel W) (e : Engine W) (b a reg : Nat)
        (buf : Option (List Nat)) (len : Nat) (x : I2CError),
      (isBusInitialized e b = true → getBus e b ≠ none) →
      (readBytes M (setError e x) b a reg buf len).2.2.last_error =
        (readBytes M e b a reg buf len).2.2.last_error)
    ∧ (∀ (W : Type) (M : WireModel W) (e : Engine W) (b : Nat) (stop : Bool)
        (x : I2CError),
      (isBusInitialized e b = true → getBus e b ≠ none) →
      (endTransmission M (setError e x) b stop).2.last_error =
        (endTransmission M e b stop).2.last_error)
    ∧ (∀ (W : Type) (M : WireModel W) (e : Engine W) (b now : Nat) (x : I2CError),
      (scanBus M (setError e x) b now).2.1.last_error =
        (scanBus M e b now).2.1.last_error)
    ∧ (∀ (W : Type) (M : WireModel W) (e : Engine W) (b s c f : Nat) (x : I2CError),
      isBusInitialized e b = false →
      (initBus M (setError e x) b s c f).2.last_error =
        (initBus M e b s c f).2.last_error) := by
  refine ⟨?_, ?_, ?_, ?_, ?_, ?_, ?_, ?_, ?_, ?_, ?_, ?_, ?_⟩
  · intro W M e b s c f hb hi
    exact initBus_short M e b s c f (by omega) hi
  · intro W M e b a h1 h2 h3
    exact preserve_isDevicePresent M e b a h1 h2 h3
  · intro W M e b a h1 h2 h3
    exact preserve_beginTransmission M e b a h1 h2 h3
  · intro W M e b a q stop h1 h2 h3
    exact preserve_requestFrom M e b a q stop h1 h2 h3
  · intro W M e b a reg v x hwf
    exact indep_writeRegister M e b a reg v x hwf
  · intro W M e b a reg d x hwf
    exact indep_writeRegister16 M e b a reg d x hwf
  · intro W M e b a reg buf x hwf
    exact indep_writeBytes M e b a reg buf x hwf
  · intro W M e b a reg x hwf
    exact indep_readRegister M e b a reg x hwf
  · intro W M e b a reg x hwf
    exact indep_readRegister16 M e b a reg x hwf
  · intro W M e b a reg buf len x hwf
    exact indep_readBytes M e b a reg buf len x hwf
  · intro W M e b stop x hwf
    exact indep_endTransmission M e b stop x hwf
  · intro W M e b now x
    exact indep_scanBus M e b now x
  · intro W M e b s c f x hi
    exact indep_initBus M e b s c f x hi

/-- Stale-error scenario: bus 0 initialized with device 0x48 responding,
then an `initBus(5, ...)` call leaves `INVALID_PARAMETERS` behind. -/
def staleEngine : Engine AckWire :=
  (initBus ackM (ackEngineWith [72]) 5 1 2 3).2

/-- Counterexample to C2 as stated: after a successful `isDevicePresent`
probe (it returns true), `getLastError()` still reports the previous call's
`INVALID_PARAMETERS`, not a value written by the probe (which would have to
be `SUCCESS` on success per the claim). -/
theorem claim_C2_counterexample :
    staleEngine.last_error = I2CError.INVALID_PARAMETERS
    ∧ (isDevicePresent ackM staleEngine 0 72).1 = true
    ∧ (isDevicePresent ackM staleEngine 0 72).2.last_error =
        I2CError.INVALID_PARAMETERS
    ∧ I2CError.INVALID_PARAMETERS ≠ I2CError.SUCCESS := by
  decide

/-- Witness for C2 at concrete engines, with prior error `TIMEOUT` for the
independence parts. -/
theorem claim_C2_witness :
    initBus ackM busyAckEngine 0 9 9 9 = (true, busyAckEngine)
    ∧ (isDevicePresent ackM busyAckEngine 0 72).2.last_error =
        busyAckEngine.last_error
    ∧ (beginTransmission ackM busyAckEngine 0 72).2.last_error =
        busyAckEngine.last_error
    ∧ (requestFrom ackM busyAckEngine 0 72 4 true).2.last_error =
        busyAckEngine.last_error
    ∧ (writeRegister ackM (setError busyAckEngine .TIMEOUT) 0 72 0 5).2.last_error =
        (writeRegister ackM busyAckEngine 0 72 0 5).2.last_error
    ∧ (writeRegister16 ackM (setError busyAckEngine .TIMEOUT) 0 72 0 300).2.last_error =
        (writeRegister16 ackM busyAckEngine 0 72 0 300).2.last_error
    ∧ (writeBytes ackM (setError busyAckEngine .TIMEOUT) 0 72 0
        (some [1, 2])).2.last_error =
        (writeBytes ackM busyAckEngine 0 72 0 (some [1, 2])).2.last_error
    ∧ (readRegister ackM (setError busyAckEngine .TIMEOUT) 0 72 0).2.last_error =
        (readRegister ackM busyAckEngine 0 72 0).2.last_error
    ∧ (readRegister16 ackM (setError busyAckEngine .TIMEOUT) 0 72 0).2.last_error =
        (readRegister16 ackM busyAckEngine 0 72 0).2.last_error
    ∧ (readBytes ackM (setError busyAckEngine .TIMEOUT) 0 72 0
        (some [9]) 1).2.2.last_error =
        (readBytes ackM busyAckEngine 0 72 0 (some [9]) 1).2.2.last_error
    ∧ (endTransmission ackM (setError busyAckEngine .TIMEOUT) 0 true).2.last_error =
        (endTransmission ackM busyAckEngine 0 true).2.last_error
    ∧ (scanBus ackM (setError busyAckEngine .TIMEOUT) 0 5).2.1.last_error =
        (scanBus ackM busyAckEngine 0 5).2.1.last_error
    ∧ (initBus ackM (setError emptyAckEngine .TIMEOUT) 0 21 22 100000).2.last_error =
        (initBus ackM emptyAckEngine 0 21 22 100000).2.last_error :=
  ⟨claim_C2.1 AckWire ackM busyAckEngine 0 9 9 9 (by decide) (by decide),
   claim_C2.2.1 AckWire ackM busyAckEngine 0 72 (by decide) (by decide) (by decide),
   claim_C2.2.2.1 AckWire ackM busyAckEngine 0 72 (by decide) (by decide) (by decide),
   claim_C2.2.2.2.1 AckWire ackM busyAckEngine 0 72 4 true (by decide) (by decide)
     (by decide),
   claim_C2.2.2.2.2.1 AckWire ackM busyAckEngine 0 72 0 5 .TIMEOUT (by decide),
   claim_C2.2.2.2.2.2.1 AckWire ackM busyAckEngine 0 72 0 300 .TIMEOUT (by decide),
   claim_C2.2.2.2.2.2.2.1 AckWire ackM busyAckEngine 0 72 0 (some [1, 2]) .TIMEOUT
     (by decide),
   claim_C2.2.2.2.2.2.2.2.1 AckWire ackM busyAckEngine 0 72 0 .TIMEOUT (by decide),
   claim_C2.2.2.2.2.2.2.2.2.1 AckWire ackM busyAckEngine 0 72 0 .TIMEOUT (by decide),
   claim_C2.2.2.2.2.2.2.2.2.2.1 AckWire ackM busyAckEngine 0 72 0 (some [9]) 1
     .TIMEOUT (by decide),
   claim_C2.2.2.2.2.2.2.2.2.2.2.1 AckWire ackM busyAckEngine 0 true .TIMEOUT
     (by decide),
   claim_C2.2.2.2.2.2.2.2.2.2.2.2.1 AckWire ackM busyAckEngine 0 5 .TIMEOUT,
   claim_C2.2.2.2.2.2.2.2.2.2.2.2.2 AckWire ackM emptyAckEngine 0 21 22 100000
     .TIMEOUT (by decide)⟩

end FlexI2C
